import Mathlib

set_option maxRecDepth 8000

/- Verification development for the slot-filling chatbot backend.
   Shallow embedding of src/app.py, src/chatserver.py and src/session_store.py.
   Python strings are Lean Strings; Python None-able values are Options;
   Python dicts are association lists; the external dateutil fuzzy parser is a
   parameter (an oracle of type String -> Option DT), instantiated with a
   concrete model on exact-format inputs for witnesses. -/

/-- ASCII letter test, modelling the regex class [A-Za-z]. -/
def isAsciiLetter (c : Char) : Bool := (c ≥ 'a' && c ≤ 'z') || (c ≥ 'A' && c ≤ 'Z')

/-- Word character, modelling the regex class backslash-w, i.e. [A-Za-z0-9_]. -/
def isWordChar (c : Char) : Bool := isAsciiLetter c || c.isDigit || c = '_'

/-- ASCII apostrophe character (codepoint 39), used inside pattern literals. -/
def apos : Char := Char.ofNat 39

/-- leadsWith needle hay: needle is an initial segment of hay. -/
def leadsWith : List Char → List Char → Bool
  | [], _ => true
  | _ :: _, [] => false
  | a :: as, b :: bs => a == b && leadsWith as bs

/-- hasSublist needle hay: needle occurs contiguously in hay (Python substring test). -/
def hasSublist (needle : List Char) : List Char → Bool
  | [] => needle.isEmpty
  | c :: rest => leadsWith needle (c :: rest) || hasSublist needle rest

/-- Python substring test: needle in hay. -/
def strContains (hay needle : String) : Bool := hasSublist needle.toList hay.toList

/-- Python str.lower() (ASCII model). -/
def pyLower (s : String) : String := String.mk (s.toList.map Char.toLower)

/-- Python str.strip(): drop leading and trailing whitespace. -/
def pyStrip (s : String) : String :=
  String.mk (((s.toList.dropWhile Char.isWhitespace).reverse.dropWhile Char.isWhitespace).reverse)

/-- Tokenizer for Python str.split() with no argument: whitespace runs separate
tokens, no empty pieces; acc holds the current token reversed. -/
def wsTokens : List Char → List Char → List (List Char)
  | acc, [] => if acc.isEmpty then [] else [acc.reverse]
  | acc, c :: rest =>
    if c.isWhitespace then
      if acc.isEmpty then wsTokens [] rest else acc.reverse :: wsTokens [] rest
    else wsTokens (c :: acc) rest

/-- Python str.split() with no argument: split on whitespace runs, no empty pieces. -/
def pySplitWs (s : String) : List String := (wsTokens [] s.toList).map String.mk

/-- Python str.capitalize(): first char uppercased, the rest lowercased. -/
def pyCapitalize (s : String) : String :=
  match s.toList with
  | [] => ""
  | c :: cs => String.mk (c.toUpper :: cs.map Char.toLower)

/-- Python str.isalpha() restricted to the ASCII alphabet. -/
def pyIsAlpha (s : String) : Bool := s != "" && s.toList.all isAsciiLetter

/-- Python truthiness of an optional string value (None and the empty string are falsy). -/
def truthyS : Option String → Bool
  | some s => s != ""
  | none => false

/-- Digit characters remaining after re.sub of non-digits (both backends use this). -/
def digitsOf (t : String) : List Char := t.toList.filter Char.isDigit

/-- Naive datetime to minute resolution, modelling Python datetime values. -/
structure DT where
  year : Nat
  month : Nat
  day : Nat
  hour : Nat
  minute : Nat
deriving Repr, DecidableEq

/-- Lexicographic key, injective on calendar-valid datetimes. -/
def DT.key (d : DT) : Nat := (((d.year * 13 + d.month) * 32 + d.day) * 24 + d.hour) * 60 + d.minute

/-- Python datetime comparison a < b. -/
def DT.ltb (a b : DT) : Bool := decide (a.key < b.key)

def isLeap (y : Nat) : Bool := (y % 4 == 0 && y % 100 != 0) || y % 400 == 0

def daysInMonth (y m : Nat) : Nat :=
  if m == 2 then (if isLeap y then 29 else 28)
  else if m == 4 || m == 6 || m == 9 || m == 11 then 30 else 31

def nextDay (d : DT) : DT :=
  if d.day < daysInMonth d.year d.month then { d with day := d.day + 1 }
  else if d.month < 12 then { d with month := d.month + 1, day := 1 }
  else { d with year := d.year + 1, month := 1, day := 1 }

/-- Python timedelta addition: now + timedelta(days = n). -/
def addDays (d : DT) : Nat → DT
  | 0 => d
  | n + 1 => nextDay (addDays d n)

def daysInYear (y : Nat) : Nat := if isLeap y then 366 else 365

def daysBeforeYear (y : Nat) : Nat :=
  ((List.range (y - 1900)).map (fun i => daysInYear (1900 + i))).foldl (· + ·) 0

def daysBeforeMonth (y m : Nat) : Nat :=
  ((List.range (m - 1)).map (fun i => daysInMonth y (i + 1))).foldl (· + ·) 0

def daysSince1900 (d : DT) : Nat := daysBeforeYear d.year + daysBeforeMonth d.year d.month + (d.day - 1)

/-- Python datetime.weekday(): Monday = 0 … Sunday = 6 (1900-01-01 was a Monday). -/
def DT.pyWeekday (d : DT) : Nat := daysSince1900 d % 7

def pad2 (n : Nat) : String := if n < 10 then "0" ++ toString n else toString n

def WEEKDAY_FULL : List String := ["Monday","Tuesday","Wednesday","Thursday","Friday","Saturday","Sunday"]
def WEEKDAY_ABBR : List String := ["Mon","Tue","Wed","Thu","Fri","Sat","Sun"]
def MONTH_ABBR : List String := ["Jan","Feb","Mar","Apr","May","Jun","Jul","Aug","Sep","Oct","Nov","Dec"]

/-- strftime fragment for the pattern of hour/minute/am-pm used by app.py. -/
def fmtIMp (d : DT) : String :=
  pad2 (((d.hour + 11) % 12) + 1) ++ ":" ++ pad2 d.minute ++ " " ++ (if d.hour < 12 then "AM" else "PM")

/-- strftime with full weekday name, day, abbreviated month, 12-hour time. -/
def fmtFullA (d : DT) : String :=
  (WEEKDAY_FULL.getD d.pyWeekday "") ++ " " ++ pad2 d.day ++ " " ++ (MONTH_ABBR.getD (d.month - 1) "") ++ ", " ++ fmtIMp d

/-- strftime with abbreviated weekday name, day, abbreviated month, 12-hour time. -/
def fmtAbbrA (d : DT) : String :=
  (WEEKDAY_ABBR.getD d.pyWeekday "") ++ " " ++ pad2 d.day ++ " " ++ (MONTH_ABBR.getD (d.month - 1) "") ++ ", " ++ fmtIMp d

/-- Python datetime.isoformat() (seconds fixed at 00 in this minute-resolution model). -/
def DT.iso (d : DT) : String :=
  toString d.year ++ "-" ++ pad2 d.month ++ "-" ++ pad2 d.day ++ "T" ++ pad2 d.hour ++ ":" ++ pad2 d.minute ++ ":00"

/-- Python dt.replace(hour := h, minute := mi). -/
def DT.setTime (d : DT) (h mi : Nat) : DT := { d with hour := h, minute := mi }

/-- Association-list membership test (Python: key in dict). -/
def assocHas {α : Type} (l : List (String × α)) (k : String) : Bool := l.any (fun p => p.1 == k)

/-- Association-list lookup (Python: dict[key], first binding wins). -/
def assocGet {α : Type} (l : List (String × α)) (k : String) : Option α :=
  match l.find? (fun p => p.1 == k) with
  | some p => some p.2
  | none => none

/-- Python dict.setdefault(k, v): insert at the end only if the key is absent. -/
def assocSetdefault {α : Type} (l : List (String × α)) (k : String) (v : α) : List (String × α) :=
  if assocHas l k then l else l ++ [(k, v)]

/-- Per-slot retry counter read, Python dict.get(step, 0). -/
def retriesGet : List (String × Nat) → String → Nat
  | [], _ => 0
  | (k2, v2) :: t, k => if k2 == k then v2 else retriesGet t k

/-- Per-slot retry counter write, Python dict[step] = v. -/
def retriesSet : List (String × Nat) → String → Nat → List (String × Nat)
  | [], k, v => [(k, v)]
  | (k2, v2) :: t, k, v => if k2 == k then (k2, v) :: t else (k2, v2) :: retriesSet t k v

/-- Case-insensitive: lit (given lowercase) is an initial segment of hay. -/
def ciLeadsWith : List Char → List Char → Bool
  | [], _ => true
  | _ :: _, [] => false
  | a :: as, b :: bs => a == b.toLower && ciLeadsWith as bs

/-- One attempt of a regex alternative at the current position: literal, then
one-or-more whitespace, then a captured maximal run of the class cls.  Greedy
matching needs no backtracking here because the class and whitespace are disjoint. -/
def matchLitCap (cls : Char → Bool) (lit : List Char) (hay : List Char) : Option (List Char) :=
  if ciLeadsWith lit hay then
    let rest := hay.drop lit.length
    let ws := rest.takeWhile Char.isWhitespace
    let body := rest.dropWhile Char.isWhitespace
    if ws.isEmpty then none
    else
      let cap := body.takeWhile cls
      if cap.isEmpty then none else some cap
  else none

/-- re.search (IGNORECASE) for a pattern of shape (lit1|lit2|…) ws+ (cls+):
alternatives tried in order at each position, leftmost position wins.  When
bound is true a word boundary is required before the literal (the literals all
start with a word character, so the boundary holds iff the previous character
is not a word character); prevW tracks the previous character. -/
def searchLitsCap (bound : Bool) (cls : Char → Bool) (lits : List (List Char)) :
    Bool → List Char → Option (List Char)
  | _, [] => none
  | prevW, c :: rest =>
    match (if bound && prevW then none
           else lits.findSome? (fun lit => matchLitCap cls lit (c :: rest))) with
    | some cap => some cap
    | none => searchLitsCap bound cls lits (isWordChar c) rest

/-- re.search (IGNORECASE) for ([A-Za-z]+) ws+ "here" — the capture is the
maximal letter run starting at the match position (shorter captures cannot be
followed by whitespace, so greedy matching is exact). -/
def searchCapHere : List Char → Option (List Char)
  | [] => none
  | c :: rest =>
    match (if isAsciiLetter c then
        let cap := (c :: rest).takeWhile isAsciiLetter
        let after := (c :: rest).dropWhile isAsciiLetter
        let ws := after.takeWhile Char.isWhitespace
        let body := after.dropWhile Char.isWhitespace
        if ws.isEmpty then none
        else if ciLeadsWith ['h','e','r','e'] body then some cap else none
      else none) with
    | some cap => some cap
    | none => searchCapHere rest

/-- Models the external dateutil fuzzy parser, dtparser.parse(text, fuzzy = True),
on inputs of the exact shape "YYYY-MM-DD HH:MM" (all digits, zero padded), on
which dateutil resolves to the corresponding datetime; on any other shape this
model fails.  Used only to instantiate the oracle parameter in witnesses. -/
def dec2 (a b : Char) : Nat := (a.toNat - 48) * 10 + (b.toNat - 48)

def dec4 (a b c d : Char) : Nat := dec2 a b * 100 + dec2 c d

def dtparseModel (text : String) : Option DT :=
  match text.toList with
  | [y1,y2,y3,y4,'-',m1,m2,'-',d1,d2,' ',h1,h2,':',n1,n2] =>
    if [y1,y2,y3,y4,m1,m2,d1,d2,h1,h2,n1,n2].all Char.isDigit then
      some ⟨dec4 y1 y2 y3 y4, dec2 m1 m2, dec2 d1 d2, dec2 h1 h2, dec2 n1 n2⟩
    else none
  | _ => none

/-- Model of dtparser.parse(text, fuzzy = True, default := d): same fragment as
dtparseModel (exact-shape inputs carry all fields, so the default is unused). -/
def dtparseModelD (text : String) (_ : DT) : Option DT := dtparseModel text

/- ===================== src/app.py ===================== -/

namespace App

/-- BUSINESS["services"] from app.py (plain strings in this variant). -/
def BUSINESS_services : List String := ["Haircut", "Massage", "Nails"]

def BUSINESS_name : String := "Kai Demo Salon"
def BUSINESS_hours_text : String := "Mon–Sat, 9am–6pm"
def BUSINESS_contact_phone : String := "01234 567890"
def BUSINESS_contact_email : String := "hello@example.com"

/-- service_names() from app.py. -/
def service_names : List String := BUSINESS_services

/-- Python name.split()[0]. -/
def firstWordOf (s : String) : String := (pySplitWs s).headD s

/-- detect_service from app.py: case-insensitive substring match of each
service name (or its first word) against the message; first match wins. -/
def detect_service (text : String) : Option String :=
  let t := pyLower text
  BUSINESS_services.findSome? (fun s =>
    let name := pyLower s
    if strContains t name || strContains t (firstWordOf name) then some s else none)

/-- list_services() from app.py (string-entry branch). -/
def list_services : String :=
  "Here are the services we offer:\n"
    ++ String.intercalate "\n" (BUSINESS_services.map (fun s => "• " ++ s))
    ++ "\n\nWhich one would you like to book?"

def WEEKDAYS : List String := ["monday","tuesday","wednesday","thursday","friday","saturday","sunday"]

/-- parse_datetime_text from app.py.  fz models dtparser.parse(text, fuzzy=True)
(None = exception), fzd models the call with a default datetime.  Note: this
variant performs no past-date validation. -/
def parse_datetime_text (fz : String → Option DT) (fzd : String → DT → Option DT)
    (now : DT) (text : String) : Option String :=
  let t := pyLower text
  if strContains t "today" then some ("today at " ++ fmtIMp now)
  else if strContains t "tomorrow" then some ("tomorrow at " ++ fmtIMp (addDays now 1))
  else
    match (List.range 7).find? (fun i => strContains t (WEEKDAYS.getD i "")) with
    | some i =>
      let da0 := (i + 7 - now.pyWeekday) % 7
      let days_ahead := if da0 == 0 then 7 else da0
      let target := (addDays now days_ahead).setTime 11 0
      (match fzd text target with
       | some dt => some (fmtFullA dt)
       | none => some (fmtFullA target))
    | none =>
      match fz text with
      | some dt => some (fmtAbbrA dt)
      | none => none

/-- extract_name from app.py: the seven phrase patterns in order (regex-only,
capitalizing the captured word), then the single-alphabetic-token fallback. -/
def extract_name (message : String) : Option String :=
  let msg := pyStrip message
  let cs := msg.toList
  let pats : List (List (List Char)) := [
    [['i',' ','a','m'], ['i', apos, 'm'], ['i','m']],
    [['m','y',' ','n','a','m','e',' ','i','s']],
    [['t','h','i','s',' ','i','s']],
    [['c','a','l','l',' ','m','e']],
    [['t','h','e','y',' ','c','a','l','l',' ','m','e']],
    [['i','t', apos, 's'], ['i','t','s']]]
  match pats.findSome? (fun lits => searchLitsCap true isAsciiLetter lits false cs) with
  | some cap => some (pyCapitalize (String.mk cap))
  | none =>
    match searchCapHere cs with
    | some cap => some (pyCapitalize (String.mk cap))
    | none =>
      if (pySplitWs msg).length == 1 && pyIsAlpha msg then some (pyCapitalize msg) else none

/-- is_valid_contact from app.py: email shape is merely "contains @ and contains .";
phone shape is at least 7 digits after stripping non-digits. -/
def is_valid_contact (text : String) : Bool :=
  let t := pyStrip text
  let looks_email := strContains t "@" && strContains t "."
  let digits := digitsOf t
  looks_email || decide (digits.length ≥ 7)

/-- classify_offscript from app.py. -/
def classify_offscript (message : String) : String :=
  let msg := pyStrip (pyLower message)
  if msg == "" || ["ok","kl","k","hmm","uh","idk","???"].contains msg then "silence"
  else if strContains msg "joke" || ["lol","haha","😂","🤣","funny"].any (fun w => strContains msg w) then "fun"
  else if ["why","need","what for","reason","privacy","secure","security"].any (fun k => strContains msg k) then "clarification"
  else "irrelevant"

/-- STEP_HUMAN.get(step, step) from app.py. -/
def STEP_HUMAN_get (step : String) : String :=
  if step == "service" then "preferred service"
  else if step == "datetime" then "preferred date & time"
  else if step == "name" then "name"
  else if step == "contact" then "phone or email"
  else step

/-- The clarification explanation dict lookup (default branch included). -/
def clarification_expl (step : String) : String :=
  if step == "service" then "so we can book the right appointment."
  else if step == "datetime" then "to secure a time that works for you."
  else if step == "name" then "to attach the booking to the right person."
  else if step == "contact" then "so we can send your confirmation and any updates."
  else "to proceed with your booking."

/-- handle_offscript from app.py: contextual deflection re-asking the current step. -/
def handle_offscript (message step : String) : Option String :=
  let category := classify_offscript message
  let need := STEP_HUMAN_get step
  if category == "fun" then
    some ("😂 Good one! Here’s one back: Why don’t skeletons fight each other? They don’t have the guts!\n\nNow, could you share your " ++ need ++ " so I can continue?")
  else if category == "clarification" then
    some ("👍 Great question — we ask for your " ++ need ++ " " ++ clarification_expl step ++ " Could you share it now?")
  else if category == "silence" then
    some ("👀 I didn’t quite catch that — could you provide your " ++ need ++ " so I can continue?")
  else if category == "irrelevant" then
    some ("Interesting! I’ll note that — to complete your booking I still need your " ++ need ++ ". Could you share it?")
  else none

/-- The pause text emitted by retry_prompt at the retry ceiling. -/
def pause_message : String := "I’ll pause here ✅ — whenever you’re ready, say “make a booking” to continue."

structure Slots where
  service : Option String
  datetime : Option String
  name : Option String
  contact : Option String
deriving Repr, DecidableEq

def emptySlots : Slots := ⟨none, none, none, none⟩

structure Booking where
  service : String
  datetime : String
  name : String
  contact : String
  created_at : String
deriving Repr, DecidableEq

structure Session where
  id : String
  last_intent : Option String
  current_step : Option String
  retries : List (String × Nat)
  slots : Slots
  history : List (String × String)
  bookings : List Booking
deriving Repr, DecidableEq

structure ChatResponse where
  reply : String
  suggestions : List String
  session_id : String
deriving Repr, DecidableEq

/-- get_session’s freshly created record from app.py. -/
def freshSession (sid : String) : Session :=
  { id := sid, last_intent := none, current_step := none, retries := [],
    slots := emptySlots, history := [], bookings := [] }

/-- get_session from app.py over an explicit session table: absent or unknown
(or empty) ids lazily create a new full record under a fresh id. -/
def get_session (sessions : List (String × Session)) (sid : Option String) (newId : String) :
    String × List (String × Session) :=
  match sid with
  | none => (newId, sessions ++ [(newId, freshSession newId)])
  | some s =>
    if s == "" || !assocHas sessions s then (newId, sessions ++ [(newId, freshSession newId)])
    else (s, sessions)

/-- remember from app.py: append the exchange, keep the last 10. -/
def remember (session : Session) (user_msg bot_reply : String) : Session :=
  let h := session.history ++ [(user_msg, bot_reply)]
  { session with history := if h.length > 10 then h.drop (h.length - 10) else h }

/-- retry_prompt from app.py: pause at 2 prior attempts, else increment and re-ask. -/
def retry_prompt (session : Session) (step : String) (base_reply : String) : String × Session :=
  let retries := retriesGet session.retries step
  if retries ≥ 2 then (pause_message, session)
  else (base_reply, { session with retries := retriesSet session.retries step (retries + 1) })

/-- The service stanza of fill_slots_from_message. -/
def fill_service (message : String) (slots : Slots) : Slots :=
  if !truthyS slots.service then
    let s := detect_service message
    if truthyS s then { slots with service := s } else slots
  else slots

/-- The datetime stanza of fill_slots_from_message. -/
def fill_datetime (fz : String → Option DT) (fzd : String → DT → Option DT)
    (now : DT) (message : String) (slots : Slots) : Slots :=
  if !truthyS slots.datetime then
    let dt := parse_datetime_text fz fzd now message
    if truthyS dt then { slots with datetime := dt } else slots
  else slots

/-- The name stanza of fill_slots_from_message. -/
def fill_name (message : String) (slots : Slots) : Slots :=
  if !truthyS slots.name then
    let nm := extract_name message
    if truthyS nm then { slots with name := nm } else slots
  else slots

/-- The contact stanza of fill_slots_from_message. -/
def fill_contact (message : String) (slots : Slots) : Slots :=
  if !truthyS slots.contact then
    if is_valid_contact message then { slots with contact := some (pyStrip message) } else slots
  else slots

/-- fill_slots_from_message from app.py: multi-intent opportunistic filling;
each stanza assigns only when its slot is currently empty. -/
def fill_slots_from_message (fz : String → Option DT) (fzd : String → DT → Option DT)
    (now : DT) (session : Session) (message : String) : Session :=
  { session with slots :=
      fill_contact message (fill_name message (fill_datetime fz fzd now message (fill_service message session.slots))) }

/-- make_payment_link from app.py. -/
def make_payment_link (session_id : String) : String :=
  "https://example-payments.test/checkout/" ++ (session_id.splitOn "-").headD ""

/-- ask_for_step from app.py. -/
def ask_for_step (step : String) : String × List String :=
  if step == "service" then ("Sure 👍 what service would you like to book at " ++ BUSINESS_name ++ "?", service_names)
  else if step == "datetime" then ("When would you like your appointment?", ["Tomorrow 3pm", "Friday 11am", "Saturday 2pm"])
  else if step == "name" then ("Got it 👍 What’s your name?", [])
  else if step == "contact" then ("And finally, could you share your phone or email for confirmation?", [])
  else ("What would you like to do next?", ["Make a booking", "Opening hours", "Contact details"])

def SLOT_ORDER : List String := ["service", "datetime", "name", "contact"]

/-- The slots dict lookup slots.get(s) over the fixed four keys. -/
def slotGet (slots : Slots) (s : String) : Option String :=
  if s == "service" then slots.service
  else if s == "datetime" then slots.datetime
  else if s == "name" then slots.name
  else if s == "contact" then slots.contact
  else none

/-- first_missing_slot from app.py. -/
def first_missing_slot (slots : Slots) : Option String :=
  SLOT_ORDER.find? (fun s => !truthyS (slotGet slots s))

/-- is_service_discovery_query from app.py. -/
def is_service_discovery_query (text : String) : Bool :=
  let t := pyLower text
  ["what are the services","tell me the services","services","menu","options",
   "what can i book","what do you offer","available services","price list","service list"].any
    (fun k => strContains t k)

/-- The finalized booking dict built by handle_booking. -/
def mkBooking (slots : Slots) (now : DT) : Booking :=
  { service := slots.service.getD "", datetime := slots.datetime.getD "",
    name := slots.name.getD "", contact := slots.contact.getD "",
    created_at := DT.iso now }

/-- The confirmation reply built by handle_booking. -/
def confirmation_reply (slots : Slots) : String :=
  "Perfect ✅ I’ve pencilled your **" ++ slots.service.getD "" ++ "** on **"
    ++ slots.datetime.getD "" ++ "** for **" ++ slots.name.getD "" ++ "**.\n"
    ++ "Confirmation will be sent to **" ++ slots.contact.getD "" ++ "**.\n\n"
    ++ "To secure the slot, tap **Pay now** to complete checkout."

/-- handle_booking from app.py. -/
def handle_booking (fz : String → Option DT) (fzd : String → DT → Option DT)
    (now : DT) (session : Session) (message : String) : ChatResponse × Session :=
  let sid := session.id
  let session := fill_slots_from_message fz fzd now session message
  if !truthyS session.slots.service && is_service_discovery_query message then
    ({ reply := list_services, suggestions := service_names, session_id := sid }, session)
  else
    match first_missing_slot session.slots with
    | some step =>
      let session := { session with current_step := some step }
      let off := handle_offscript message step
      if truthyS off then
        ({ reply := off.getD "", suggestions := [], session_id := sid }, session)
      else
        let askPair := ask_for_step step
        let rp := retry_prompt session step askPair.1
        ({ reply := rp.1, suggestions := askPair.2, session_id := sid }, rp.2)
    | none =>
      let booking := mkBooking session.slots now
      let session := { session with
        bookings := session.bookings ++ [booking],
        current_step := none,
        retries := [] }
      ({ reply := confirmation_reply session.slots,
         suggestions := ["Pay now", "Change time", "Make another booking"], session_id := sid }, session)

def greeting_responses : List String := ["Hey there 👋", "Hiya 🙌", "Yo, what’s up? 😎"]
def how_are_you_responses : List String := ["I’m doing great, thanks 😊 How about you?", "Feeling chatty today 😁 How are you?"]
def thanks_responses : List String := ["Anytime 🙌", "You’re very welcome!", "No worries 👍"]
def bye_responses : List String := ["Catch you later 👋", "Bye! Take care 😊", "See ya soon 🚀"]
def joke_responses : List String := ["😂 Why don’t skeletons fight? They don’t have the guts!", "🤣 I tried to book a haircut… but couldn’t make the cut!"]
def hungry_responses : List String := ["I can’t cook 🍔 but I can schedule your pampering.", "Food is life 😋 but I’m here for bookings."]

/-- handle_smalltalk from app.py; pick models random.choice. -/
def handle_smalltalk (pick : List String → String) (message : String) (session : Session) :
    Option ChatResponse :=
  let msg := pyStrip (pyLower message)
  let sid := session.id
  if ["hi","hello","hey","yo"].any (fun w => strContains msg w) then
    let reply := if truthyS session.slots.name then
        "Hey " ++ session.slots.name.getD "" ++ " 👋 great to see you again!"
      else pick greeting_responses
    some { reply := reply, suggestions := ["Make a booking", "Opening hours"], session_id := sid }
  else if strContains msg "how are you" then
    some { reply := pick how_are_you_responses, suggestions := ["Good 👍", "Not bad", "Could be better"], session_id := sid }
  else if strContains msg "thank" then
    some { reply := pick thanks_responses, suggestions := ["Make a booking", "Contact details"], session_id := sid }
  else if ["bye","goodbye","later","see ya"].any (fun w => strContains msg w) then
    some { reply := pick bye_responses, suggestions := ["Restart chat", "Contact details"], session_id := sid }
  else if strContains msg "joke" then
    some { reply := pick joke_responses, suggestions := ["Tell me another joke", "Back to booking"], session_id := sid }
  else if strContains msg "hungry" || strContains msg "food" then
    some { reply := pick hungry_responses, suggestions := ["Any food recommendations?", "Make a booking"], session_id := sid }
  else none

/-- One turn of the /chat endpoint from app.py, after session resolution:
the branch cascade over the stripped message. -/
def chatTurn (fz : String → Option DT) (fzd : String → DT → Option DT)
    (pick : List String → String) (now : DT) (session : Session) (raw : String) :
    ChatResponse × Session :=
  let sid := session.id
  let message := pyStrip raw
  let low := pyLower message
  if low == "pay now" || low == "pay" || low == "checkout" then
    let reply := "Here’s your secure checkout link: " ++ make_payment_link sid
      ++ "\n\nOnce paid, you’ll receive a confirmation by email/SMS."
    ({ reply := reply, suggestions := ["Make another booking", "Contact support"], session_id := sid },
     remember session message reply)
  else if strContains low "opening" || strContains low "hours" then
    let reply := "We’re open " ++ BUSINESS_hours_text ++ " ⏰"
    ({ reply := reply, suggestions := ["Make a booking", "Contact details"], session_id := sid },
     remember session message reply)
  else if strContains low "contact" || strContains low "phone" || strContains low "email" then
    let reply := "You can reach us at 📞 " ++ BUSINESS_contact_phone ++ " or ✉️ " ++ BUSINESS_contact_email
    ({ reply := reply, suggestions := ["Make a booking", "Opening hours"], session_id := sid },
     remember session message reply)
  else if strContains low "cancel" then
    let session := { session with
      slots := { service := none, datetime := none, name := session.slots.name, contact := none },
      current_step := none,
      retries := [] }
    let reply := "Okay, I’ve cancelled your booking details here ✅"
    ({ reply := reply, suggestions := ["Make a new booking", "Contact support"], session_id := sid },
     remember session message reply)
  else
    let nm := extract_name message
    if truthyS nm && !truthyS session.slots.name then
      let session := { session with slots := { session.slots with name := nm } }
      let reply := "Nice to meet you, " ++ nm.getD "" ++ " 😃"
      ({ reply := reply, suggestions := ["Make a booking", "Opening hours"], session_id := sid },
       remember session message reply)
    else if session.last_intent == some "booking" || strContains low "book" then
      let session := { session with last_intent := some "booking" }
      let hb := handle_booking fz fzd now session message
      (hb.1, remember hb.2 message hb.1.reply)
    else
      match handle_smalltalk pick message session with
      | some resp => (resp, remember session message resp.reply)
      | none =>
        let reply := if truthyS session.slots.name then
            "That’s interesting, " ++ session.slots.name.getD ""
              ++ " 🤔 I mostly help with bookings, opening hours, or contact details. Want me to show you?"
          else
            "That’s interesting 🤔 I mostly help with bookings, opening hours, or contact details. Want me to show you?"
        ({ reply := reply, suggestions := ["Make a booking", "Opening hours", "Contact details"], session_id := sid },
         remember session message reply)

end App

/- ===================== src/chatserver.py ===================== -/

namespace CS

/-- The hard-coded default config services from chatserver.py: (name, price, duration). -/
def SERVICES : List (String × Nat × String) :=
  [("Haircut", 25, "30 mins"), ("Massage", 40, "60 mins"), ("Nails", 20, "30 mins")]

def BUSINESS_hours_text : String := "Mon–Sat, 9am–6pm"
def BUSINESS_contact_phone : String := "01234 567890"
def BUSINESS_contact_email : String := "hello@example.com"

/-- SERVICE_SYNONYMS.get(name, []) from chatserver.py (keys are lowercase names). -/
def SERVICE_SYNONYMS (name : String) : List String :=
  if name == "haircut" then ["cut", "trim", "style"]
  else if name == "massage" then ["relaxation", "therapy"]
  else if name == "nails" then ["manicure", "pedicure"]
  else []

/-- detect_service from chatserver.py: name substring first, then synonyms. -/
def detect_service (text : String) : Option String :=
  let t := pyLower text
  SERVICES.findSome? (fun s =>
    let name := pyLower s.1
    if strContains t name then some s.1
    else (SERVICE_SYNONYMS name).findSome? (fun syn => if strContains t syn then some s.1 else none))

/-- The paired machine/human datetime value {'iso': …, 'pretty': …}. -/
structure DtVal where
  iso : String
  pretty : String
deriving Repr, DecidableEq

/-- _pretty from chatserver.py. -/
def pretty (dt : DT) : String := fmtFullA dt

/-- The regex match re.match(r"in (digits+) (days?|weeks?)", t): anchored prefix,
maximal digit run, one space, then day/days or week/weeks as a prefix of the rest.
Returns the day count already multiplied as the code does. -/
def matchInDays (t : String) : Option Nat :=
  match t.toList with
  | 'i' :: 'n' :: ' ' :: rest =>
    let ds := rest.takeWhile Char.isDigit
    let rest2 := rest.dropWhile Char.isDigit
    if ds.isEmpty then none
    else
      match rest2 with
      | ' ' :: unit =>
        let n := ds.foldl (fun a c => a * 10 + (c.toNat - 48)) 0
        if leadsWith ['d','a','y'] unit then some n
        else if leadsWith ['w','e','e','k'] unit then some (n * 7)
        else none
      | _ => none
  | _ => none

/-- The datetime resolution step of parse_datetime_text from chatserver.py:
today / tomorrow / "in N days|weeks" / dateutil fuzzy parse (None = exception). -/
def resolve_dt (fz : String → Option DT) (now : DT) (text : String) : Option DT :=
  let t := pyLower text
  if strContains t "today" then some now
  else if strContains t "tomorrow" then some (addDays now 1)
  else
    match matchInDays t with
    | some delta => some (addDays now delta)
    | none => fz text

/-- parse_datetime_text from chatserver.py: resolve, then reject the past
(dt < now yields None, the same signal as an unparseable text). -/
def parse_datetime_text (fz : String → Option DT) (now : DT) (text : String) : Option DtVal :=
  match resolve_dt fz now text with
  | none => none
  | some dt => if DT.ltb dt now then none else some { iso := DT.iso dt, pretty := pretty dt }

/-- extract_name from chatserver.py: three phrase patterns, no word boundary,
capture class is the word-character class. -/
def extract_name (msg : String) : Option String :=
  let cs := msg.toList
  let pats : List (List (List Char)) := [
    [['i',' ','a','m'], ['i', apos, 'm'], ['i','m']],
    [['m','y',' ','n','a','m','e',' ','i','s']],
    [['c','a','l','l',' ','m','e']]]
  match pats.findSome? (fun lits => searchLitsCap false isWordChar lits false cs) with
  | some cap => some (pyCapitalize (String.mk cap))
  | none => none

/-- The tail of the email regex after the first @: one-or-more non-@ characters,
a dot, then one-or-more non-@ characters (as a prefix of the remainder). -/
def emailTailGo : List Char → Bool
  | [] => false
  | c :: rest =>
    if c = '@' then false
    else if c = '.' && (match rest with | y :: _ => y ≠ '@' | [] => false) then true
    else emailTailGo rest

def emailTail : List Char → Bool
  | [] => false
  | c :: rest => c ≠ '@' && emailTailGo rest

/-- After skipping the nonempty run of non-@ characters, find the first @ and
match the tail there (regex backtracking cannot cross the @ class). -/
def emailAfterOne : List Char → Bool
  | [] => false
  | c :: rest => if c = '@' then emailTail rest else emailAfterOne rest

/-- re.match(r"[^@]+@[^@]+[.][^@]+", t): anchored prefix match. -/
def emailMatch (t : String) : Bool :=
  match t.toList with
  | [] => false
  | c :: rest => c ≠ '@' && emailAfterOne (c :: rest)

/-- is_valid_contact from chatserver.py: anchored email regex or at least 7 digits. -/
def is_valid_contact (t : String) : Bool :=
  if strContains t "@" && emailMatch t then true
  else decide ((digitsOf t).length ≥ 7)

/-- list_services() from chatserver.py. -/
def list_services : String :=
  "Here are the services:\n"
    ++ String.intercalate "\n"
      (SERVICES.map (fun s => "• " ++ s.1 ++ " — £" ++ toString s.2.1 ++ " (" ++ s.2.2 ++ ")"))

structure Slots where
  service : Option String
  datetime : Option DtVal
  name : Option String
  contact : Option String
deriving Repr, DecidableEq

/-- Python truthiness of the datetime slot (a dict with two keys, truthy iff present). -/
def truthyD : Option DtVal → Bool := Option.isSome

/-- The finalized booking dict built by handle_booking: the slot snapshot plus created_at. -/
structure Booking where
  service : Option String
  datetime : Option DtVal
  name : Option String
  contact : Option String
  created_at : String
deriving Repr, DecidableEq

structure Session where
  id : String
  last_intent : Option String
  slots : Slots
  bookings : List Booking
deriving Repr, DecidableEq

/-- ChatResponse from chatserver.py; make_response always attaches the current
slots as the debug payload (the save_sessions persistence call is external I/O). -/
structure ChatResponse where
  reply : String
  suggestions : List String
  session_id : String
  debugSlots : Slots
deriving Repr, DecidableEq

def make_response (reply : String) (sugg : List String) (session : Session) : ChatResponse :=
  { reply := reply, suggestions := sugg, session_id := session.id, debugSlots := session.slots }

/-- The safety prompts dict at the bottom of handle_booking. -/
def safety_prompt (k : String) : String :=
  if k == "service" then "Which service?"
  else if k == "datetime" then "When would you like it?"
  else if k == "name" then "What’s your name?"
  else if k == "contact" then "Your phone or email?"
  else ""

def slotTruthy (slots : Slots) (k : String) : Bool :=
  if k == "service" then truthyS slots.service
  else if k == "datetime" then truthyD slots.datetime
  else if k == "name" then truthyS slots.name
  else if k == "contact" then truthyS slots.contact
  else false

/-- Steps 5-7 of handle_booking from chatserver.py: finalize when every slot is
truthy, otherwise the safety re-ask loop, otherwise the generic fallback. -/
def booking_finalize (now : DT) (session : Session) : ChatResponse × Session :=
  let slots := session.slots
  if truthyS slots.service && truthyD slots.datetime && truthyS slots.name && truthyS slots.contact then
    let b : Booking := { service := slots.service, datetime := slots.datetime,
                         name := slots.name, contact := slots.contact, created_at := DT.iso now }
    let session := { session with bookings := session.bookings ++ [b] }
    let dt_display := (slots.datetime.map DtVal.pretty).getD "None"
    (make_response ("✅ Booked " ++ slots.service.getD "" ++ " on " ++ dt_display ++ " for "
        ++ slots.name.getD "" ++ ".\nConfirm to " ++ slots.contact.getD "" ++ ".\nPay now?")
      ["Pay now", "Change time"] session, session)
  else
    match ["service", "datetime", "name", "contact"].find? (fun k => !slotTruthy slots k) with
    | some k => (make_response (safety_prompt k) [] session, session)
    | none => (make_response "Something went wrong, please try again." [] session, session)

/-- Step 4 of handle_booking (contact). -/
def booking_step4 (now : DT) (session : Session) (msg : String) : ChatResponse × Session :=
  let slots := session.slots
  if truthyS slots.service && truthyD slots.datetime && truthyS slots.name && !truthyS slots.contact then
    if is_valid_contact msg then
      booking_finalize now { session with slots := { slots with contact := some msg } }
    else
      (make_response "That doesn’t look like a valid phone or email. Could you try again?" [] session, session)
  else booking_finalize now session

/-- Step 3 of handle_booking (name, strict phrase match). -/
def booking_step3 (now : DT) (session : Session) (msg : String) : ChatResponse × Session :=
  let slots := session.slots
  if truthyS slots.service && truthyD slots.datetime && !truthyS slots.name then
    let nm := extract_name msg
    if truthyS nm then booking_step4 now { session with slots := { slots with name := nm } } msg
    else (make_response "What’s your name?" [] session, session)
  else booking_step4 now session msg

/-- Step 2 of handle_booking (datetime, with past rejection folded into parsing). -/
def booking_step2 (fz : String → Option DT) (now : DT) (session : Session) (msg : String) :
    ChatResponse × Session :=
  let slots := session.slots
  if truthyS slots.service && !truthyD slots.datetime then
    match parse_datetime_text fz now msg with
    | some dtv => booking_step3 now { session with slots := { slots with datetime := some dtv } } msg
    | none =>
      (make_response "That time has already passed or wasn’t clear. Could you pick a future slot?"
        ["Tomorrow 3pm", "Saturday 11am"] session, session)
  else booking_step3 now session msg

/-- handle_booking from chatserver.py (step 1 is the service step; each later
step runs only when the earlier ones returned normally). -/
def handle_booking (fz : String → Option DT) (now : DT) (session : Session) (msg : String) :
    ChatResponse × Session :=
  if !truthyS session.slots.service then
    let s := detect_service msg
    if truthyS s then
      let session := { session with slots := { session.slots with service := s } }
      (make_response ("Great, I’ve got you down for " ++ s.getD "" ++ ". When would you like it?")
        ["Tomorrow 3pm", "Saturday 11am"] session, session)
    else
      (make_response list_services (SERVICES.map (fun s => s.1)) session, session)
  else booking_step2 fz now session msg

/-- SMALLTALK table and handler from chatserver.py; pick models random.choice. -/
def SMALLTALK : List (String × List String) :=
  [("hi", ["Hey 👋", "Hiya 🙌"]), ("thank", ["You’re welcome 👍"]), ("bye", ["See you 👋"])]

def handle_smalltalk (pick : List String → String) (msg : String) (session : Session) :
    Option ChatResponse :=
  let m := pyLower msg
  SMALLTALK.findSome? (fun kv =>
    if strContains m kv.1 then some (make_response (pick kv.2) ["Make a booking"] session) else none)

/-- One turn of the /chat endpoint from chatserver.py, after session resolution. -/
def chatTurn (fz : String → Option DT) (pick : List String → String) (now : DT)
    (session : Session) (raw : String) : ChatResponse × Session :=
  let msg := pyStrip raw
  let low := pyLower msg
  if low == "pay" || low == "pay now" || low == "checkout" then
    (make_response "Here’s your checkout link: https://example-payments/abc"
      ["Make another booking"] session, session)
  else if strContains low "opening" then
    (make_response ("We’re open " ++ BUSINESS_hours_text) ["Make a booking"] session, session)
  else if strContains low "contact" && (strContains low "details" || strContains low "number" || strContains low "email") then
    (make_response ("☎ " ++ BUSINESS_contact_phone ++ " ✉ " ++ BUSINESS_contact_email)
      ["Make a booking"] session, session)
  else if strContains low "cancel" then
    let session := { session with slots := ⟨none, none, none, none⟩ }
    (make_response "Booking cancelled ✅" ["Make a new booking"] session, session)
  else if session.last_intent == some "booking" || strContains low "book" || truthyS (detect_service low) then
    let session := { session with last_intent := some "booking" }
    handle_booking fz now session msg
  else
    match handle_smalltalk pick msg session with
    | some st => (st, session)
    | none =>
      (make_response "I mostly help with bookings, hours or contact. Want me to show you?"
        ["Make a booking", "Opening hours"] session, session)

end CS

/- ===================== src/session_store.py ===================== -/

namespace SessionStore

/-- A stored session record as found in the JSON store: any of the expected keys
may be absent (None at this level = key missing); slot values are left uninterpreted. -/
structure StoredSession where
  id : String
  last_intent : Option (Option String)
  slots : Option (List (String × Option String))
  bookings : Option (List CS.Booking)
deriving Repr, DecidableEq

/-- _default_session from session_store.py. -/
def default_session (sid : String) (slot_order : List String) : StoredSession :=
  { id := sid, last_intent := some none,
    slots := some (slot_order.map (fun k => (k, none))), bookings := some [] }

/-- The repair block of get_session: ensure the slots dict exists, setdefault
every slot key, ensure last_intent and bookings exist. -/
def repair_session (sess : StoredSession) (slot_order : List String) : StoredSession :=
  let slots0 := match sess.slots with
    | some l => l
    | none => []
  let slots1 := slot_order.foldl (fun l k => assocSetdefault l k none) slots0
  { sess with
    slots := some slots1,
    last_intent := match sess.last_intent with
      | none => some none
      | some v => some v,
    bookings := match sess.bookings with
      | none => some []
      | some b => some b }

/-- get_session from session_store.py: lazy creation for an absent, empty or
unknown id; repair of the found record otherwise.  Always returns a record. -/
def get_session (store : List (String × StoredSession)) (sid : Option String)
    (slot_order : List String) (newId : String) : String × StoredSession :=
  match sid with
  | none => (newId, default_session newId slot_order)
  | some s =>
    if s == "" || !assocHas store s then (newId, default_session newId slot_order)
    else
      match assocGet store s with
      | some sess => (s, repair_session sess slot_order)
      | none => (newId, default_session newId slot_order)

end SessionStore

/- ===================== claim-support definitions ===================== -/

/-- Module-level SLOT_ORDER from chatserver.py (passed to the session store). -/
def CS.SLOT_ORDER : List String := ["service", "datetime", "name", "contact"]

/-- Whether a stored session record has slot key k (inside its slots dict if present). -/
def hasSlotKey (r : SessionStore.StoredSession) (k : String) : Bool :=
  match r.slots with
  | some l => assocHas l k
  | none => false

/-- The spec’s email shape, stated from the spec’s words for comparison with the
code’s validators: the text contains an @ with a dot somewhere after that @. -/
def specEmailShaped : List Char → Bool
  | [] => false
  | c :: rest => (c = '@' && rest.contains '.') || specEmailShaped rest

/-- The spec’s contact-acceptance rule, stated from the spec’s words: email-shaped,
or at least 7 digits after stripping non-digits. -/
def spec_contact_pred (t : String) : Bool :=
  specEmailShaped t.toList || decide ((digitsOf t).length ≥ 7)

/-- Fixed reference time for concrete evaluations (a Monday). -/
def now0 : DT := ⟨2026, 10, 12, 12, 0⟩

/-- A fixed selector standing in for random.choice in concrete evaluations. -/
def pickHead : List String → String := fun l => l.headD ""

/-- An app.py session whose four slots are all filled. -/
def sFull : App.Session :=
  { id := "s1", last_intent := some "booking", current_step := none, retries := [],
    slots := ⟨some "Haircut", some "Wed 04 Mar, 10:00 AM", some "Kai", some "07123456789"⟩,
    history := [], bookings := [] }

/-- An app.py session holding one finalized booking (for cancel-semantics checks). -/
def sBooked : App.Session :=
  { id := "s1", last_intent := some "booking", current_step := none, retries := [],
    slots := ⟨some "Haircut", some "Wed 04 Mar, 10:00 AM", some "Kai", none⟩,
    history := [],
    bookings := [⟨"Haircut", "Wed 04 Mar, 10:00 AM", "Kai", "07123456789", "2026-10-12T12:00:00"⟩] }

/-- A chatserver.py session with only the service slot filled. -/
def csServiceOnly : CS.Session :=
  { id := "c1", last_intent := some "booking",
    slots := ⟨some "Haircut", none, none, none⟩, bookings := [] }

/-- A chatserver.py session whose four slots are all filled. -/
def csAllFilled : CS.Session :=
  { id := "c1", last_intent := some "booking",
    slots := ⟨some "Haircut", some ⟨"2026-12-04T10:00:00", "Friday 04 Dec, 10:00 AM"⟩, some "Kai", some "07123456789"⟩,
    bookings := [] }

/-- A chatserver.py session holding one finalized booking. -/
def csBooked : CS.Session :=
  { id := "c1", last_intent := some "booking",
    slots := ⟨some "Haircut", none, some "Kai", none⟩,
    bookings := [⟨some "Haircut", some ⟨"2026-12-04T10:00:00", "Friday 04 Dec, 10:00 AM"⟩, some "Kai", some "07123456789", "2026-10-12T12:00:00"⟩] }

/-- The message "I’m Haircut" (apostrophe spelled via its codepoint). -/
def msgImHaircut : String := String.mk ['I', apos, 'm', ' ', 'H', 'a', 'i', 'r', 'c', 'u', 't']

/-- A malformed stored record: slots dict present but missing every expected key,
last_intent and bookings keys absent. -/
def storeMalformed : List (String × SessionStore.StoredSession) :=
  [("x", { id := "x", last_intent := none, slots := some [("bogus", some "1")], bookings := none })]

/-- An app.py session with only the service slot filled (booking in progress). -/
def sServiceOnly : App.Session :=
  { id := "s1", last_intent := some "booking", current_step := none, retries := [],
    slots := ⟨some "Haircut", none, none, none⟩, history := [], bookings := [] }

/-- An app.py session with everything but the contact slot filled. -/
def sFullButContact : App.Session :=
  { id := "s1", last_intent := some "booking", current_step := none, retries := [],
    slots := ⟨some "Haircut", some "Wed 04 Mar, 10:00 AM", some "Kai", none⟩,
    history := [], bookings := [] }

/- ===================== helper lemmas ===================== -/

theorem str_append_ne_empty (a b : String) (h : a ≠ "") : a ++ b ≠ "" := by
  intro hab
  apply h
  cases a with
  | mk d =>
    cases b with
    | mk e =>
      have hde : d ++ e = [] := congrArg String.data hab
      have hd : d = [] := (List.append_eq_nil.mp hde).1
      simp [hd]

theorem truthyS_some_iff (s : String) : (truthyS (some s) = true) ↔ s ≠ "" := by
  simp [truthyS]

theorem classify_offscript_cases (m : String) :
    App.classify_offscript m = "silence" ∨ App.classify_offscript m = "fun" ∨
    App.classify_offscript m = "clarification" ∨ App.classify_offscript m = "irrelevant" := by
  unfold App.classify_offscript
  dsimp only
  split
  · exact Or.inl rfl
  · split
    · exact Or.inr (Or.inl rfl)
    · split
      · exact Or.inr (Or.inr (Or.inl rfl))
      · exact Or.inr (Or.inr (Or.inr rfl))

theorem offscript_truthy (m st : String) : truthyS (App.handle_offscript m st) = true := by
  rcases classify_offscript_cases m with h | h | h | h
  all_goals
    simp only [App.handle_offscript, h, String.reduceBEq, if_true, if_false,
      Bool.false_eq_true, reduceIte]
    rw [truthyS_some_iff]
    repeat' apply str_append_ne_empty
    decide

theorem remember_slots (s : App.Session) (u b : String) : (App.remember s u b).slots = s.slots := rfl

theorem remember_retries (s : App.Session) (u b : String) : (App.remember s u b).retries = s.retries := rfl

theorem remember_bookings (s : App.Session) (u b : String) : (App.remember s u b).bookings = s.bookings := rfl

theorem remember_current_step (s : App.Session) (u b : String) :
    (App.remember s u b).current_step = s.current_step := rfl

theorem retry_prompt_slots (s : App.Session) (st b : String) :
    (App.retry_prompt s st b).2.slots = s.slots := by
  unfold App.retry_prompt
  dsimp only
  split <;> rfl

theorem retry_prompt_bookings (s : App.Session) (st b : String) :
    (App.retry_prompt s st b).2.bookings = s.bookings := by
  unfold App.retry_prompt
  dsimp only
  split <;> rfl

theorem retriesGet_set_self (r : List (String × Nat)) (k : String) (v : Nat) :
    retriesGet (retriesSet r k v) k = v := by
  induction r with
  | nil => simp [retriesSet, retriesGet]
  | cons p t ih =>
    obtain ⟨k2, v2⟩ := p
    by_cases h : (k2 == k) = true
    · simp [retriesSet, retriesGet, h]
    · simp only [retriesSet, retriesGet, h, Bool.false_eq_true, if_false]
      simpa [retriesGet, h] using ih

theorem fill_service_datetime (m : String) (sl : App.Slots) :
    (App.fill_service m sl).datetime = sl.datetime := by
  unfold App.fill_service
  dsimp only
  split
  · split <;> rfl
  · rfl

theorem fill_service_name (m : String) (sl : App.Slots) :
    (App.fill_service m sl).name = sl.name := by
  unfold App.fill_service
  dsimp only
  split
  · split <;> rfl
  · rfl

theorem fill_service_contact (m : String) (sl : App.Slots) :
    (App.fill_service m sl).contact = sl.contact := by
  unfold App.fill_service
  dsimp only
  split
  · split <;> rfl
  · rfl

theorem fill_service_keep (m : String) (sl : App.Slots) (h : truthyS sl.service = true) :
    (App.fill_service m sl).service = sl.service := by
  simp [App.fill_service, h]

theorem fill_datetime_service (fz : String → Option DT) (fzd : String → DT → Option DT)
    (now : DT) (m : String) (sl : App.Slots) :
    (App.fill_datetime fz fzd now m sl).service = sl.service := by
  unfold App.fill_datetime
  dsimp only
  split
  · split <;> rfl
  · rfl

theorem fill_datetime_name (fz : String → Option DT) (fzd : String → DT → Option DT)
    (now : DT) (m : String) (sl : App.Slots) :
    (App.fill_datetime fz fzd now m sl).name = sl.name := by
  unfold App.fill_datetime
  dsimp only
  split
  · split <;> rfl
  · rfl

theorem fill_datetime_contact (fz : String → Option DT) (fzd : String → DT → Option DT)
    (now : DT) (m : String) (sl : App.Slots) :
    (App.fill_datetime fz fzd now m sl).contact = sl.contact := by
  unfold App.fill_datetime
  dsimp only
  split
  · split <;> rfl
  · rfl

theorem fill_datetime_keep (fz : String → Option DT) (fzd : String → DT → Option DT)
    (now : DT) (m : String) (sl : App.Slots) (h : truthyS sl.datetime = true) :
    (App.fill_datetime fz fzd now m sl).datetime = sl.datetime := by
  simp [App.fill_datetime, h]

theorem fill_name_service (m : String) (sl : App.Slots) :
    (App.fill_name m sl).service = sl.service := by
  unfold App.fill_name
  dsimp only
  split
  · split <;> rfl
  · rfl

theorem fill_name_datetime (m : String) (sl : App.Slots) :
    (App.fill_name m sl).datetime = sl.datetime := by
  unfold App.fill_name
  dsimp only
  split
  · split <;> rfl
  · rfl

theorem fill_name_contact (m : String) (sl : App.Slots) :
    (App.fill_name m sl).contact = sl.contact := by
  unfold App.fill_name
  dsimp only
  split
  · split <;> rfl
  · rfl

theorem fill_name_keep (m : String) (sl : App.Slots) (h : truthyS sl.name = true) :
    (App.fill_name m sl).name = sl.name := by
  simp [App.fill_name, h]

theorem fill_contact_service (m : String) (sl : App.Slots) :
    (App.fill_contact m sl).service = sl.service := by
  unfold App.fill_contact
  try dsimp only
  split
  · split <;> rfl
  · rfl

theorem fill_contact_datetime (m : String) (sl : App.Slots) :
    (App.fill_contact m sl).datetime = sl.datetime := by
  unfold App.fill_contact
  try dsimp only
  split
  · split <;> rfl
  · rfl

theorem fill_contact_name (m : String) (sl : App.Slots) :
    (App.fill_contact m sl).name = sl.name := by
  unfold App.fill_contact
  try dsimp only
  split
  · split <;> rfl
  · rfl

theorem fill_contact_keep (m : String) (sl : App.Slots) (h : truthyS sl.contact = true) :
    (App.fill_contact m sl).contact = sl.contact := by
  simp [App.fill_contact, h]

theorem fill_contact_sets (m : String) (sl : App.Slots)
    (h1 : truthyS sl.contact = false) (h2 : App.is_valid_contact m = true) :
    (App.fill_contact m sl).contact = some (pyStrip m) := by
  simp [App.fill_contact, h1, h2]

theorem fill_slots_retries (fz : String → Option DT) (fzd : String → DT → Option DT)
    (now : DT) (s : App.Session) (m : String) :
    (App.fill_slots_from_message fz fzd now s m).retries = s.retries := rfl

theorem fill_slots_bookings (fz : String → Option DT) (fzd : String → DT → Option DT)
    (now : DT) (s : App.Session) (m : String) :
    (App.fill_slots_from_message fz fzd now s m).bookings = s.bookings := rfl

theorem fill_slots_id (fz : String → Option DT) (fzd : String → DT → Option DT)
    (now : DT) (s : App.Session) (m : String) :
    (App.fill_slots_from_message fz fzd now s m).id = s.id := rfl

theorem fill_slots_service_keep (fz : String → Option DT) (fzd : String → DT → Option DT)
    (now : DT) (s : App.Session) (m : String) (h : truthyS s.slots.service = true) :
    (App.fill_slots_from_message fz fzd now s m).slots.service = s.slots.service := by
  show (App.fill_contact m (App.fill_name m (App.fill_datetime fz fzd now m (App.fill_service m s.slots)))).service = s.slots.service
  rw [fill_contact_service, fill_name_service, fill_datetime_service, fill_service_keep m s.slots h]

theorem fill_slots_datetime_keep (fz : String → Option DT) (fzd : String → DT → Option DT)
    (now : DT) (s : App.Session) (m : String) (h : truthyS s.slots.datetime = true) :
    (App.fill_slots_from_message fz fzd now s m).slots.datetime = s.slots.datetime := by
  show (App.fill_contact m (App.fill_name m (App.fill_datetime fz fzd now m (App.fill_service m s.slots)))).datetime = s.slots.datetime
  rw [fill_contact_datetime, fill_name_datetime]
  have h1 : (App.fill_service m s.slots).datetime = s.slots.datetime := fill_service_datetime m s.slots
  rw [fill_datetime_keep fz fzd now m _ (by rw [h1]; exact h), h1]

theorem fill_slots_name_keep (fz : String → Option DT) (fzd : String → DT → Option DT)
    (now : DT) (s : App.Session) (m : String) (h : truthyS s.slots.name = true) :
    (App.fill_slots_from_message fz fzd now s m).slots.name = s.slots.name := by
  show (App.fill_contact m (App.fill_name m (App.fill_datetime fz fzd now m (App.fill_service m s.slots)))).name = s.slots.name
  rw [fill_contact_name]
  have h1 : (App.fill_datetime fz fzd now m (App.fill_service m s.slots)).name = s.slots.name := by
    rw [fill_datetime_name, fill_service_name]
  rw [fill_name_keep m _ (by rw [h1]; exact h), h1]

theorem fill_slots_contact_keep (fz : String → Option DT) (fzd : String → DT → Option DT)
    (now : DT) (s : App.Session) (m : String) (h : truthyS s.slots.contact = true) :
    (App.fill_slots_from_message fz fzd now s m).slots.contact = s.slots.contact := by
  show (App.fill_contact m (App.fill_name m (App.fill_datetime fz fzd now m (App.fill_service m s.slots)))).contact = s.slots.contact
  have h1 : (App.fill_name m (App.fill_datetime fz fzd now m (App.fill_service m s.slots))).contact = s.slots.contact := by
    rw [fill_name_contact, fill_datetime_contact, fill_service_contact]
  rw [fill_contact_keep m _ (by rw [h1]; exact h), h1]

theorem fill_slots_contact_sets (fz : String → Option DT) (fzd : String → DT → Option DT)
    (now : DT) (s : App.Session) (m : String)
    (h1 : truthyS s.slots.contact = false) (h2 : App.is_valid_contact m = true) :
    (App.fill_slots_from_message fz fzd now s m).slots.contact = some (pyStrip m) := by
  show (App.fill_contact m (App.fill_name m (App.fill_datetime fz fzd now m (App.fill_service m s.slots)))).contact = some (pyStrip m)
  have hx : (App.fill_name m (App.fill_datetime fz fzd now m (App.fill_service m s.slots))).contact = s.slots.contact := by
    rw [fill_name_contact, fill_datetime_contact, fill_service_contact]
  exact fill_contact_sets m _ (by rw [hx]; exact h1) h2

theorem handle_booking_slots (fz : String → Option DT) (fzd : String → DT → Option DT)
    (now : DT) (s : App.Session) (m : String) :
    (App.handle_booking fz fzd now s m).2.slots = (App.fill_slots_from_message fz fzd now s m).slots := by
  unfold App.handle_booking
  dsimp only
  split
  · rfl
  · split
    · split
      · rfl
      · rw [retry_prompt_slots]
    · rfl

theorem handle_booking_bookings_mono (fz : String → Option DT) (fzd : String → DT → Option DT)
    (now : DT) (s : App.Session) (m : String) :
    (App.handle_booking fz fzd now s m).2.bookings = s.bookings ∨
    (App.handle_booking fz fzd now s m).2.bookings =
      s.bookings ++ [App.mkBooking (App.fill_slots_from_message fz fzd now s m).slots now] := by
  unfold App.handle_booking
  dsimp only
  split
  · exact Or.inl rfl
  · split
    · split
      · exact Or.inl rfl
      · refine Or.inl ?_
        rw [retry_prompt_bookings]
        rfl
    · exact Or.inr rfl

theorem handle_booking_retries (fz : String → Option DT) (fzd : String → DT → Option DT)
    (now : DT) (s : App.Session) (m : String) :
    (App.handle_booking fz fzd now s m).2.retries = s.retries ∨
    (App.handle_booking fz fzd now s m).2.retries = [] := by
  unfold App.handle_booking
  dsimp only
  split
  · exact Or.inl rfl
  · split
    · split
      · exact Or.inl rfl
      · next hoff => exact absurd (offscript_truthy m _) hoff
    · exact Or.inr rfl

theorem first_missing_none_truthy (sl : App.Slots) (h : App.first_missing_slot sl = none) :
    truthyS sl.service = true ∧ truthyS sl.datetime = true ∧
    truthyS sl.name = true ∧ truthyS sl.contact = true := by
  unfold App.first_missing_slot at h
  rw [List.find?_eq_none] at h
  refine ⟨?_, ?_, ?_, ?_⟩
  · have hx := h "service" (by simp [App.SLOT_ORDER])
    simpa [App.slotGet] using hx
  · have hx := h "datetime" (by simp [App.SLOT_ORDER])
    simpa [App.slotGet] using hx
  · have hx := h "name" (by simp [App.SLOT_ORDER])
    simpa [App.slotGet] using hx
  · have hx := h "contact" (by simp [App.SLOT_ORDER])
    simpa [App.slotGet] using hx

theorem chatTurn_retries_empty (fz : String → Option DT) (fzd : String → DT → Option DT)
    (pick : List String → String) (now : DT) (s : App.Session) (raw : String)
    (h : s.retries = []) :
    (App.chatTurn fz fzd pick now s raw).2.retries = [] := by
  have hb := handle_booking_retries fz fzd now { s with last_intent := some "booking" } (pyStrip raw)
  unfold App.chatTurn
  dsimp only
  split
  · rw [remember_retries]; exact h
  · split
    · rw [remember_retries]; exact h
    · split
      · rw [remember_retries]; exact h
      · split
        · rw [remember_retries]
        · split
          · rw [remember_retries]; exact h
          · split
            · rw [remember_retries]
              rcases hb with h1 | h1
              · rw [h1]; exact h
              · rw [h1]
            · split
              · rw [remember_retries]; exact h
              · rw [remember_retries]; exact h

theorem chatTurn_service_keep (fz : String → Option DT) (fzd : String → DT → Option DT)
    (pick : List String → String) (now : DT) (s : App.Session) (raw : String)
    (hc : strContains (pyLower (pyStrip raw)) "cancel" = false)
    (h : truthyS s.slots.service = true) :
    (App.chatTurn fz fzd pick now s raw).2.slots.service = s.slots.service := by
  unfold App.chatTurn
  dsimp only
  split
  · rw [remember_slots]
  · split
    · rw [remember_slots]
    · split
      · rw [remember_slots]
      · split
        · next hcc => simp [hc] at hcc
        · split
          · rw [remember_slots]
          · split
            · rw [remember_slots, handle_booking_slots]
              exact fill_slots_service_keep fz fzd now _ _ h
            · split
              · rw [remember_slots]
              · rw [remember_slots]

theorem chatTurn_datetime_keep (fz : String → Option DT) (fzd : String → DT → Option DT)
    (pick : List String → String) (now : DT) (s : App.Session) (raw : String)
    (hc : strContains (pyLower (pyStrip raw)) "cancel" = false)
    (h : truthyS s.slots.datetime = true) :
    (App.chatTurn fz fzd pick now s raw).2.slots.datetime = s.slots.datetime := by
  unfold App.chatTurn
  dsimp only
  split
  · rw [remember_slots]
  · split
    · rw [remember_slots]
    · split
      · rw [remember_slots]
      · split
        · next hcc => simp [hc] at hcc
        · split
          · rw [remember_slots]
          · split
            · rw [remember_slots, handle_booking_slots]
              exact fill_slots_datetime_keep fz fzd now _ _ h
            · split
              · rw [remember_slots]
              · rw [remember_slots]

theorem chatTurn_name_keep (fz : String → Option DT) (fzd : String → DT → Option DT)
    (pick : List String → String) (now : DT) (s : App.Session) (raw : String)
    (hc : strContains (pyLower (pyStrip raw)) "cancel" = false)
    (h : truthyS s.slots.name = true) :
    (App.chatTurn fz fzd pick now s raw).2.slots.name = s.slots.name := by
  unfold App.chatTurn
  dsimp only
  split
  · rw [remember_slots]
  · split
    · rw [remember_slots]
    · split
      · rw [remember_slots]
      · split
        · next hcc => simp [hc] at hcc
        · split
          · next hnm2 => simp [h] at hnm2
          · split
            · rw [remember_slots, handle_booking_slots]
              exact fill_slots_name_keep fz fzd now _ _ h
            · split
              · rw [remember_slots]
              · rw [remember_slots]

theorem chatTurn_contact_keep (fz : String → Option DT) (fzd : String → DT → Option DT)
    (pick : List String → String) (now : DT) (s : App.Session) (raw : String)
    (hc : strContains (pyLower (pyStrip raw)) "cancel" = false)
    (h : truthyS s.slots.contact = true) :
    (App.chatTurn fz fzd pick now s raw).2.slots.contact = s.slots.contact := by
  unfold App.chatTurn
  dsimp only
  split
  · rw [remember_slots]
  · split
    · rw [remember_slots]
    · split
      · rw [remember_slots]
      · split
        · next hcc => simp [hc] at hcc
        · split
          · rw [remember_slots]
          · split
            · rw [remember_slots, handle_booking_slots]
              exact fill_slots_contact_keep fz fzd now _ _ h
            · split
              · rw [remember_slots]
              · rw [remember_slots]

theorem cs_fin_slots (now : DT) (s : CS.Session) :
    (CS.booking_finalize now s).2.slots = s.slots := by
  unfold CS.booking_finalize
  dsimp only
  split
  · rfl
  · split <;> rfl

theorem cs_fin_bookings (now : DT) (s : CS.Session) :
    (CS.booking_finalize now s).2.bookings = s.bookings ∨
    (CS.booking_finalize now s).2.bookings = s.bookings ++
      [⟨s.slots.service, s.slots.datetime, s.slots.name, s.slots.contact, DT.iso now⟩] := by
  unfold CS.booking_finalize
  dsimp only
  split
  · exact Or.inr rfl
  · split <;> exact Or.inl rfl

theorem cs_st4_service (now : DT) (s : CS.Session) (m : String) :
    (CS.booking_step4 now s m).2.slots.service = s.slots.service := by
  unfold CS.booking_step4
  dsimp only
  split
  · split
    · rw [cs_fin_slots]
    · rfl
  · rw [cs_fin_slots]

theorem cs_st4_datetime (now : DT) (s : CS.Session) (m : String) :
    (CS.booking_step4 now s m).2.slots.datetime = s.slots.datetime := by
  unfold CS.booking_step4
  dsimp only
  split
  · split
    · rw [cs_fin_slots]
    · rfl
  · rw [cs_fin_slots]

theorem cs_st4_name (now : DT) (s : CS.Session) (m : String) :
    (CS.booking_step4 now s m).2.slots.name = s.slots.name := by
  unfold CS.booking_step4
  dsimp only
  split
  · split
    · rw [cs_fin_slots]
    · rfl
  · rw [cs_fin_slots]

theorem cs_st4_contact_keep (now : DT) (s : CS.Session) (m : String)
    (h : truthyS s.slots.contact = true) :
    (CS.booking_step4 now s m).2.slots.contact = s.slots.contact := by
  simp [CS.booking_step4, h, cs_fin_slots]

theorem cs_st3_service (now : DT) (s : CS.Session) (m : String) :
    (CS.booking_step3 now s m).2.slots.service = s.slots.service := by
  unfold CS.booking_step3
  dsimp only
  split
  · split
    · exact cs_st4_service now _ m
    · rfl
  · exact cs_st4_service now s m

theorem cs_st3_datetime (now : DT) (s : CS.Session) (m : String) :
    (CS.booking_step3 now s m).2.slots.datetime = s.slots.datetime := by
  unfold CS.booking_step3
  dsimp only
  split
  · split
    · exact cs_st4_datetime now _ m
    · rfl
  · exact cs_st4_datetime now s m

theorem cs_st3_name_keep (now : DT) (s : CS.Session) (m : String)
    (h : truthyS s.slots.name = true) :
    (CS.booking_step3 now s m).2.slots.name = s.slots.name := by
  simp [CS.booking_step3, h, cs_st4_name]

theorem cs_st3_contact_keep (now : DT) (s : CS.Session) (m : String)
    (h : truthyS s.slots.contact = true) :
    (CS.booking_step3 now s m).2.slots.contact = s.slots.contact := by
  unfold CS.booking_step3
  dsimp only
  split
  · split
    · exact cs_st4_contact_keep now _ m h
    · rfl
  · exact cs_st4_contact_keep now s m h

theorem cs_st2_service (fz : String → Option DT) (now : DT) (s : CS.Session) (m : String) :
    (CS.booking_step2 fz now s m).2.slots.service = s.slots.service := by
  unfold CS.booking_step2
  dsimp only
  split
  · split
    · exact cs_st3_service now _ m
    · rfl
  · exact cs_st3_service now s m

theorem cs_st2_datetime_keep (fz : String → Option DT) (now : DT) (s : CS.Session) (m : String)
    (h : CS.truthyD s.slots.datetime = true) :
    (CS.booking_step2 fz now s m).2.slots.datetime = s.slots.datetime := by
  simp [CS.booking_step2, h, cs_st3_datetime]

theorem cs_st2_name_keep (fz : String → Option DT) (now : DT) (s : CS.Session) (m : String)
    (h : truthyS s.slots.name = true) :
    (CS.booking_step2 fz now s m).2.slots.name = s.slots.name := by
  unfold CS.booking_step2
  dsimp only
  split
  · split
    · exact cs_st3_name_keep now _ m h
    · rfl
  · exact cs_st3_name_keep now s m h

theorem cs_st2_contact_keep (fz : String → Option DT) (now : DT) (s : CS.Session) (m : String)
    (h : truthyS s.slots.contact = true) :
    (CS.booking_step2 fz now s m).2.slots.contact = s.slots.contact := by
  unfold CS.booking_step2
  dsimp only
  split
  · split
    · exact cs_st3_contact_keep now _ m h
    · rfl
  · exact cs_st3_contact_keep now s m h

theorem cs_hb_service_keep (fz : String → Option DT) (now : DT) (s : CS.Session) (m : String)
    (h : truthyS s.slots.service = true) :
    (CS.handle_booking fz now s m).2.slots.service = s.slots.service := by
  simp [CS.handle_booking, h, cs_st2_service]

theorem cs_hb_datetime_keep (fz : String → Option DT) (now : DT) (s : CS.Session) (m : String)
    (h : CS.truthyD s.slots.datetime = true) :
    (CS.handle_booking fz now s m).2.slots.datetime = s.slots.datetime := by
  unfold CS.handle_booking
  dsimp only
  split
  · split
    · rfl
    · rfl
  · exact cs_st2_datetime_keep fz now s m h

theorem cs_hb_name_keep (fz : String → Option DT) (now : DT) (s : CS.Session) (m : String)
    (h : truthyS s.slots.name = true) :
    (CS.handle_booking fz now s m).2.slots.name = s.slots.name := by
  unfold CS.handle_booking
  dsimp only
  split
  · split
    · rfl
    · rfl
  · exact cs_st2_name_keep fz now s m h

theorem cs_hb_contact_keep (fz : String → Option DT) (now : DT) (s : CS.Session) (m : String)
    (h : truthyS s.slots.contact = true) :
    (CS.handle_booking fz now s m).2.slots.contact = s.slots.contact := by
  unfold CS.handle_booking
  dsimp only
  split
  · split
    · rfl
    · rfl
  · exact cs_st2_contact_keep fz now s m h

theorem cs_chatTurn_service_keep (fz : String → Option DT) (pick : List String → String)
    (now : DT) (s : CS.Session) (raw : String)
    (hc : strContains (pyLower (pyStrip raw)) "cancel" = false)
    (h : truthyS s.slots.service = true) :
    (CS.chatTurn fz pick now s raw).2.slots.service = s.slots.service := by
  unfold CS.chatTurn
  dsimp only
  split
  · rfl
  · split
    · rfl
    · split
      · rfl
      · split
        · next hcc => simp [hc] at hcc
        · split
          · exact cs_hb_service_keep fz now _ _ h
          · split
            · rfl
            · rfl

theorem cs_chatTurn_datetime_keep (fz : String → Option DT) (pick : List String → String)
    (now : DT) (s : CS.Session) (raw : String)
    (hc : strContains (pyLower (pyStrip raw)) "cancel" = false)
    (h : CS.truthyD s.slots.datetime = true) :
    (CS.chatTurn fz pick now s raw).2.slots.datetime = s.slots.datetime := by
  unfold CS.chatTurn
  dsimp only
  split
  · rfl
  · split
    · rfl
    · split
      · rfl
      · split
        · next hcc => simp [hc] at hcc
        · split
          · exact cs_hb_datetime_keep fz now _ _ h
          · split
            · rfl
            · rfl

theorem cs_chatTurn_name_keep (fz : String → Option DT) (pick : List String → String)
    (now : DT) (s : CS.Session) (raw : String)
    (hc : strContains (pyLower (pyStrip raw)) "cancel" = false)
    (h : truthyS s.slots.name = true) :
    (CS.chatTurn fz pick now s raw).2.slots.name = s.slots.name := by
  unfold CS.chatTurn
  dsimp only
  split
  · rfl
  · split
    · rfl
    · split
      · rfl
      · split
        · next hcc => simp [hc] at hcc
        · split
          · exact cs_hb_name_keep fz now _ _ h
          · split
            · rfl
            · rfl

theorem cs_chatTurn_contact_keep (fz : String → Option DT) (pick : List String → String)
    (now : DT) (s : CS.Session) (raw : String)
    (hc : strContains (pyLower (pyStrip raw)) "cancel" = false)
    (h : truthyS s.slots.contact = true) :
    (CS.chatTurn fz pick now s raw).2.slots.contact = s.slots.contact := by
  unfold CS.chatTurn
  dsimp only
  split
  · rfl
  · split
    · rfl
    · split
      · rfl
      · split
        · next hcc => simp [hc] at hcc
        · split
          · exact cs_hb_contact_keep fz now _ _ h
          · split
            · rfl
            · rfl

theorem hasSublist_single_iff (c : Char) (l : List Char) :
    hasSublist [c] l = true ↔ c ∈ l := by
  induction l with
  | nil => simp [hasSublist]
  | cons d rest ih =>
    simp only [hasSublist, leadsWith, Bool.or_eq_true, Bool.and_eq_true, ih, List.mem_cons]
    constructor
    · rintro (⟨h, _⟩ | h)
      · exact Or.inl (beq_iff_eq.mp h)
      · exact Or.inr h
    · rintro (h | h)
      · exact Or.inl ⟨beq_iff_eq.mpr h, trivial⟩
      · exact Or.inr h

theorem specEmailShaped_mem (l : List Char) (h : specEmailShaped l = true) :
    '@' ∈ l ∧ '.' ∈ l := by
  induction l with
  | nil => simp [specEmailShaped] at h
  | cons c rest ih =>
    rw [specEmailShaped] at h
    rcases Bool.or_eq_true_iff.mp h with h1 | h1
    · obtain ⟨h2, h3⟩ := Bool.and_eq_true_iff.mp h1
      have hc : c = '@' := decide_eq_true_eq.mp h2
      refine ⟨by simp [hc], ?_⟩
      have : '.' ∈ rest := List.elem_iff.mp h3
      exact List.mem_cons_of_mem c this
    · obtain ⟨ha, hd⟩ := ih h1
      exact ⟨List.mem_cons_of_mem c ha, List.mem_cons_of_mem c hd⟩

theorem ws_not_digit (c : Char) (h : c.isWhitespace = true) : c.isDigit = false := by
  unfold Char.isWhitespace at h
  rcases Bool.or_eq_true_iff.mp h with h1 | h1
  · rcases Bool.or_eq_true_iff.mp h1 with h2 | h2
    · rcases Bool.or_eq_true_iff.mp h2 with h3 | h3
      · have hc : c = ' ' := decide_eq_true_eq.mp h3
        subst hc; decide
      · have hc : c = '\t' := decide_eq_true_eq.mp h3
        subst hc; decide
    · have hc : c = '\r' := decide_eq_true_eq.mp h2
      subst hc; decide
  · have hc : c = '\n' := decide_eq_true_eq.mp h1
    subst hc; decide

theorem mem_dropWhile_of_not (p : Char → Bool) (c : Char) (hc : p c = false) :
    ∀ l : List Char, c ∈ l → c ∈ l.dropWhile p := by
  intro l
  induction l with
  | nil => intro h; exact h
  | cons d rest ih =>
    intro h
    by_cases hd : p d = true
    · rw [List.dropWhile_cons_of_pos hd]
      rcases List.mem_cons.mp h with h1 | h1
      · subst h1; rw [hc] at hd; cases hd
      · exact ih h1
    · rw [List.dropWhile_cons_of_neg hd]
      exact h

theorem mem_pyStrip (c : Char) (s : String) (hw : c.isWhitespace = false)
    (h : c ∈ s.toList) : c ∈ (pyStrip s).toList := by
  show c ∈ ((s.toList.dropWhile Char.isWhitespace).reverse.dropWhile Char.isWhitespace).reverse
  rw [List.mem_reverse]
  apply mem_dropWhile_of_not Char.isWhitespace c hw
  rw [List.mem_reverse]
  exact mem_dropWhile_of_not Char.isWhitespace c hw _ h

theorem filter_dropWhile_disjoint (p q : Char → Bool) (hpq : ∀ a, p a = true → q a = false) :
    ∀ l : List Char, (l.dropWhile p).filter q = l.filter q := by
  intro l
  induction l with
  | nil => rfl
  | cons d rest ih =>
    by_cases hd : p d = true
    · rw [List.dropWhile_cons_of_pos hd, ih, List.filter_cons_of_neg]
      simp [hpq d hd]
    · rw [List.dropWhile_cons_of_neg hd]

theorem digitsOf_pyStrip_length (s : String) :
    (digitsOf (pyStrip s)).length = (digitsOf s).length := by
  show (List.filter Char.isDigit ((s.toList.dropWhile Char.isWhitespace).reverse.dropWhile Char.isWhitespace).reverse).length = _
  rw [List.filter_reverse, List.length_reverse,
    filter_dropWhile_disjoint Char.isWhitespace Char.isDigit ws_not_digit,
    List.filter_reverse, List.length_reverse,
    filter_dropWhile_disjoint Char.isWhitespace Char.isDigit ws_not_digit]
  rfl

theorem spec_pred_sub_app (t : String) (h : spec_contact_pred t = true) :
    App.is_valid_contact t = true := by
  unfold spec_contact_pred at h
  unfold App.is_valid_contact
  dsimp only
  rcases Bool.or_eq_true_iff.mp h with h1 | h1
  · obtain ⟨ha, hd⟩ := specEmailShaped_mem t.toList h1
    apply Bool.or_eq_true_iff.mpr
    left
    apply Bool.and_eq_true_iff.mpr
    constructor
    · show hasSublist ("@".toList) (pyStrip t).toList = true
      rw [show ("@" : String).toList = ['@'] from rfl, hasSublist_single_iff]
      exact mem_pyStrip '@' t (by decide) ha
    · show hasSublist (".".toList) (pyStrip t).toList = true
      rw [show ("." : String).toList = ['.'] from rfl, hasSublist_single_iff]
      exact mem_pyStrip '.' t (by decide) hd
  · apply Bool.or_eq_true_iff.mpr
    right
    rw [digitsOf_pyStrip_length]
    exact h1

theorem assocSetdefault_has_self {α : Type} (l : List (String × α)) (k : String) (v : α) :
    assocHas (assocSetdefault l k v) k = true := by
  unfold assocSetdefault
  split
  · assumption
  · unfold assocHas
    rw [List.any_append]
    apply Bool.or_eq_true_iff.mpr
    right
    simp [List.any_cons]

theorem assocSetdefault_has_mono {α : Type} (l : List (String × α)) (k k2 : String) (v : α)
    (h : assocHas l k2 = true) :
    assocHas (assocSetdefault l k v) k2 = true := by
  unfold assocSetdefault
  split
  · exact h
  · unfold assocHas
    rw [List.any_append]
    apply Bool.or_eq_true_iff.mpr
    left
    exact h

theorem ask_for_step_ne_pause (step : String) :
    (App.ask_for_step step).1 ≠ App.pause_message := by
  unfold App.ask_for_step
  split
  · decide
  · split
    · decide
    · split
      · decide
      · split
        · decide
        · decide

/- ===================== claim theorems ===================== -/

/-- C1 counterexample: with every slot already filled, a booking turn appends a
booking record but does NOT reset the slots to empty — they keep their values,
contradicting the claim’s "resets the slots to empty". -/
theorem claim_C1_counterexample :
    (App.handle_booking dtparseModel dtparseModelD now0 sFull "ok").2.bookings.length
        = sFull.bookings.length + 1
    ∧ (App.handle_booking dtparseModel dtparseModelD now0 sFull "ok").2.slots ≠ App.emptySlots
    ∧ (App.handle_booking dtparseModel dtparseModelD now0 sFull "ok").2.slots.service = some "Haircut"
    ∧ (App.handle_booking dtparseModel dtparseModelD now0 sFull "ok").2.retries = []
    ∧ (App.handle_booking dtparseModel dtparseModelD now0 sFull "ok").2.current_step = none := by
  decide

/-- C1 amended: when a message leaves no slot missing, app.py’s handle_booking
appends exactly one finalized booking (slot snapshot plus creation timestamp),
replies with the confirmation, resets current_step to None and the retry map to
empty, but does NOT clear the slots; chatserver.py’s handle_booking likewise
appends the snapshot booking and leaves the slots filled. -/
theorem claim_C1_amended :
    (∀ (fz : String → Option DT) (fzd : String → DT → Option DT) (now : DT) (s : App.Session) (m : String),
      App.first_missing_slot (App.fill_slots_from_message fz fzd now s m).slots = none →
      (App.handle_booking fz fzd now s m).2.bookings
          = s.bookings ++ [App.mkBooking (App.fill_slots_from_message fz fzd now s m).slots now]
        ∧ (App.handle_booking fz fzd now s m).2.retries = []
        ∧ (App.handle_booking fz fzd now s m).2.current_step = none
        ∧ (App.handle_booking fz fzd now s m).2.slots = (App.fill_slots_from_message fz fzd now s m).slots
        ∧ (App.handle_booking fz fzd now s m).1.reply
            = App.confirmation_reply (App.fill_slots_from_message fz fzd now s m).slots
        ∧ (App.handle_booking fz fzd now s m).1.suggestions = ["Pay now", "Change time", "Make another booking"])
  ∧ (∀ (fz : String → Option DT) (now : DT) (s : CS.Session) (m : String),
      truthyS s.slots.service = true → CS.truthyD s.slots.datetime = true →
      truthyS s.slots.name = true → truthyS s.slots.contact = true →
      (CS.handle_booking fz now s m).2.bookings
          = s.bookings ++ [⟨s.slots.service, s.slots.datetime, s.slots.name, s.slots.contact, DT.iso now⟩]
        ∧ (CS.handle_booking fz now s m).2.slots = s.slots) := by
  constructor
  · intro fz fzd now s m hmiss
    obtain ⟨h1, h2, h3, h4⟩ := first_missing_none_truthy _ hmiss
    unfold App.handle_booking
    dsimp only
    simp only [h1, Bool.not_true, Bool.false_and, Bool.false_eq_true, if_false, hmiss]
    refine ⟨?_, ?_, ?_, ?_, ?_, ?_⟩ <;> trivial
  · intro fz now s m h1 h2 h3 h4
    have e : CS.handle_booking fz now s m = CS.booking_finalize now s := by
      unfold CS.handle_booking CS.booking_step2 CS.booking_step3 CS.booking_step4
      simp [h1, h2, h3, h4]
    rw [e]
    unfold CS.booking_finalize
    simp only [h1, h2, h3, h4, Bool.and_true, Bool.true_and, if_true]
    refine ⟨?_, ?_⟩ <;> trivial

/-- C1 witness: a concrete all-slots-filled session finalizes with the retry
map reset, via the amended theorem. -/
theorem claim_C1_witness :
    (App.handle_booking dtparseModel dtparseModelD now0 sFull "ok").2.retries = []
    ∧ (App.handle_booking dtparseModel dtparseModelD now0 sFull "ok").2.bookings
        = sFull.bookings ++ [App.mkBooking (App.fill_slots_from_message dtparseModel dtparseModelD now0 sFull "ok").slots now0]
    ∧ (CS.handle_booking dtparseModel now0 csAllFilled "anything").2.slots = csAllFilled.slots := by
  refine ⟨(claim_C1_amended.1 dtparseModel dtparseModelD now0 sFull "ok" (by decide)).2.1,
          (claim_C1_amended.1 dtparseModel dtparseModelD now0 sFull "ok" (by decide)).1,
          (claim_C1_amended.2 dtparseModel now0 csAllFilled "anything" (by decide) (by decide) (by decide) (by decide)).2⟩

/-- C2 counterexample: app.py’s parse_datetime_text performs no past-date check:
the external parser resolves "2020-01-04 10:00" to a time strictly before now0,
yet the extractor returns a value and the datetime slot gets filled. -/
theorem claim_C2_counterexample :
    dtparseModel "2020-01-04 10:00" = some ⟨2020, 1, 4, 10, 0⟩
    ∧ DT.ltb ⟨2020, 1, 4, 10, 0⟩ now0 = true
    ∧ App.parse_datetime_text dtparseModel dtparseModelD now0 "2020-01-04 10:00"
        = some "Sat 04 Jan, 10:00 AM"
    ∧ (App.fill_slots_from_message dtparseModel dtparseModelD now0 sServiceOnly "2020-01-04 10:00").slots.datetime
        ≠ none := by
  decide

/-- C2 amended: chatserver.py’s parse_datetime_text rejects any resolved
timestamp strictly before now by returning None — the same signal as an
unparseable text, not a distinct one — so the datetime slot stays unfilled and
handle_booking replies with the past/unclear re-prompt without advancing to the
name step; app.py’s extractor has no such check (see the counterexample). -/
theorem claim_C2_amended :
    (∀ (fz : String → Option DT) (now : DT) (text : String) (dt : DT),
      CS.resolve_dt fz now text = some dt → DT.ltb dt now = true →
      CS.parse_datetime_text fz now text = none)
  ∧ (∀ (fz : String → Option DT) (now : DT) (s : CS.Session) (m : String),
      truthyS s.slots.service = true → s.slots.datetime = none →
      CS.parse_datetime_text fz now m = none →
      (CS.handle_booking fz now s m).1.reply
          = "That time has already passed or wasn’t clear. Could you pick a future slot?"
        ∧ (CS.handle_booking fz now s m).2.slots.datetime = none
        ∧ (CS.handle_booking fz now s m).1.reply ≠ "What’s your name?"
        ∧ (CS.handle_booking fz now s m).2.slots.name = s.slots.name) := by
  constructor
  · intro fz now text dt hres hlt
    unfold CS.parse_datetime_text
    rw [hres]
    simp [hlt]
  · intro fz now s m h1 hdt hp
    have e : CS.handle_booking fz now s m
        = (CS.make_response "That time has already passed or wasn’t clear. Could you pick a future slot?"
            ["Tomorrow 3pm", "Saturday 11am"] s, s) := by
      unfold CS.handle_booking CS.booking_step2
      simp [h1, hdt, CS.truthyD, hp]
    rw [e]
    exact ⟨rfl, hdt,
      (show ("That time has already passed or wasn’t clear. Could you pick a future slot?" : String)
          ≠ "What’s your name?" by decide), rfl⟩

/-- C2 witness: the concrete past input is rejected by chatserver.py and the
reply is the past/unclear re-prompt. -/
theorem claim_C2_witness :
    CS.parse_datetime_text dtparseModel now0 "2020-01-04 10:00" = none
    ∧ (CS.handle_booking dtparseModel now0 csServiceOnly "2020-01-04 10:00").1.reply
        = "That time has already passed or wasn’t clear. Could you pick a future slot?" := by
  refine ⟨claim_C2_amended.1 dtparseModel now0 "2020-01-04 10:00" ⟨2020, 1, 4, 10, 0⟩ (by decide) (by decide),
          (claim_C2_amended.2 dtparseModel now0 csServiceOnly "2020-01-04 10:00" (by decide) (by decide) (by decide)).1⟩

/-- C3 counterexample: three consecutive unresolvable turns for the service slot
("???" three times) never increment the retry counter and never produce the
pause message — every turn is answered by the off-script deflection instead,
contradicting the claim that the third failure yields the pause message. -/
theorem claim_C3_counterexample :
    (App.handle_booking dtparseModel dtparseModelD now0
      (App.handle_booking dtparseModel dtparseModelD now0
        (App.handle_booking dtparseModel dtparseModelD now0 (App.freshSession "s1") "???").2
        "???").2 "???").1.reply
      = "👀 I didn’t quite catch that — could you provide your preferred service so I can continue?"
    ∧ (App.handle_booking dtparseModel dtparseModelD now0
        (App.handle_booking dtparseModel dtparseModelD now0
          (App.handle_booking dtparseModel dtparseModelD now0 (App.freshSession "s1") "???").2
          "???").2 "???").2.retries = []
    ∧ (App.handle_booking dtparseModel dtparseModelD now0
        (App.handle_booking dtparseModel dtparseModelD now0
          (App.handle_booking dtparseModel dtparseModelD now0 (App.freshSession "s1") "???").2
          "???").2 "???").1.reply ≠ App.pause_message := by
  decide

/-- C3 amended: retry_prompt itself implements the claimed policy — below the
ceiling of 2 it increments the per-slot counter and returns the plain re-ask,
at the ceiling it returns the pause message without incrementing, and the
counter never exceeds 2 — but in app.py’s handle_booking the off-script handler
intercepts every failed turn, so the retry branch never runs: handle_booking
either leaves the retry map unchanged or resets it to empty. -/
theorem claim_C3_amended :
    (∀ (s : App.Session) (step base : String),
      retriesGet s.retries step < 2 →
      App.retry_prompt s step base
        = (base, { s with retries := retriesSet s.retries step (retriesGet s.retries step + 1) }))
  ∧ (∀ (s : App.Session) (step base : String),
      retriesGet s.retries step ≥ 2 →
      App.retry_prompt s step base = (App.pause_message, s))
  ∧ (∀ (s : App.Session) (step base : String),
      retriesGet s.retries step ≤ 2 →
      retriesGet (App.retry_prompt s step base).2.retries step ≤ 2)
  ∧ (∀ (fz : String → Option DT) (fzd : String → DT → Option DT) (now : DT) (s : App.Session) (m : String),
      (App.handle_booking fz fzd now s m).2.retries = s.retries
      ∨ (App.handle_booking fz fzd now s m).2.retries = []) := by
  refine ⟨?_, ?_, ?_, handle_booking_retries⟩
  · intro s step base h
    unfold App.retry_prompt
    dsimp only
    rw [if_neg (by omega)]
  · intro s step base h
    unfold App.retry_prompt
    dsimp only
    rw [if_pos h]
  · intro s step base h
    unfold App.retry_prompt
    dsimp only
    split
    · exact h
    · next hlt =>
      dsimp only
      rw [retriesGet_set_self]
      omega

/-- C3 witness: on a fresh session the counter is below the ceiling, so
retry_prompt returns the plain re-ask and increments the counter to 1. -/
theorem claim_C3_witness :
    App.retry_prompt (App.freshSession "s1") "service" "ask"
      = ("ask", { App.freshSession "s1" with retries := [("service", 1)] }) := by
  have h := claim_C3_amended.1 (App.freshSession "s1") "service" "ask" (by decide)
  simpa using h

/-- C4 counterexample: the claimed "iff" fails in both backends — app.py accepts
"a.b@cd" although its only dot comes before the @ (so the claim’s predicate
rejects it), while chatserver.py rejects "@a.b" although it contains an @ with
a dot after it (so the claim’s predicate accepts it). -/
theorem claim_C4_counterexample :
    App.is_valid_contact "a.b@cd" = true ∧ spec_contact_pred "a.b@cd" = false
    ∧ CS.is_valid_contact "@a.b" = false ∧ spec_contact_pred "@a.b" = true := by
  decide

/-- C4 amended: the three boundary vectors behave as claimed in both backends
(abc rejected, 0712345 accepted, a@b.c accepted); every spec-accepted value is
accepted by app.py (its email test only requires an @ and a dot anywhere, so it
accepts a strict superset); and an accepted value is stored as the stripped
message by app.py’s multi-intent fill and verbatim by chatserver.py’s contact
step. -/
theorem claim_C4_amended :
    (App.is_valid_contact "abc" = false ∧ App.is_valid_contact "0712345" = true
      ∧ App.is_valid_contact "a@b.c" = true)
  ∧ (CS.is_valid_contact "abc" = false ∧ CS.is_valid_contact "0712345" = true
      ∧ CS.is_valid_contact "a@b.c" = true)
  ∧ (∀ t, spec_contact_pred t = true → App.is_valid_contact t = true)
  ∧ (∀ (fz : String → Option DT) (fzd : String → DT → Option DT) (now : DT) (s : App.Session) (m : String),
      truthyS s.slots.contact = false → App.is_valid_contact m = true →
      (App.fill_slots_from_message fz fzd now s m).slots.contact = some (pyStrip m))
  ∧ (∀ (fz : String → Option DT) (now : DT) (s : CS.Session) (m : String),
      truthyS s.slots.service = true → CS.truthyD s.slots.datetime = true →
      truthyS s.slots.name = true → s.slots.contact = none →
      CS.is_valid_contact m = true →
      (CS.handle_booking fz now s m).2.slots.contact = some m) := by
  refine ⟨by decide, by decide, spec_pred_sub_app, fill_slots_contact_sets, ?_⟩
  intro fz now s m h1 h2 h3 hc hv
  have hc2 : truthyS s.slots.contact = false := by rw [hc]; rfl
  have e : CS.handle_booking fz now s m
      = CS.booking_finalize now { s with slots := { s.slots with contact := some m } } := by
    unfold CS.handle_booking CS.booking_step2 CS.booking_step3 CS.booking_step4
    simp [h1, h2, h3, hc2, hv]
  rw [e, cs_fin_slots]

/-- C4 witness: a seven-digit value accepted by the spec’s predicate is accepted
by app.py, and a concrete valid contact fills the empty contact slot stripped. -/
theorem claim_C4_witness :
    App.is_valid_contact "1234567" = true
    ∧ (App.fill_slots_from_message dtparseModel dtparseModelD now0 sFullButContact " 0712345 ").slots.contact
        = some "0712345" := by
  refine ⟨claim_C4_amended.2.2.1 "1234567" (by decide), ?_⟩
  have h := claim_C4_amended.2.2.2.1 dtparseModel dtparseModelD now0 sFullButContact " 0712345 "
    (by decide) (by decide)
  simpa using h

/-- C5 counterexample: neither name extractor guards against catalog service
names — a message that is exactly "Haircut" is returned as the name by app.py’s
single-word fallback (and the multi-intent fill then stores it in BOTH the
service and the name slot), and chatserver.py extracts "Haircut" from
"I’m Haircut". -/
theorem claim_C5_counterexample :
    App.extract_name "Haircut" = some "Haircut"
    ∧ "Haircut" ∈ App.service_names
    ∧ (App.fill_slots_from_message dtparseModel dtparseModelD now0 (App.freshSession "s1") "Haircut").slots.name
        = some "Haircut"
    ∧ (App.fill_slots_from_message dtparseModel dtparseModelD now0 (App.freshSession "s1") "Haircut").slots.service
        = some "Haircut"
    ∧ CS.extract_name msgImHaircut = some "Haircut" := by
  decide

/-- C5 amended: there is no service-name guard in either extractor: every
configured service name, sent alone, is returned verbatim as the person’s name
by app.py’s extract_name, and chatserver.py’s phrase patterns likewise return a
service name when one is captured. -/
theorem claim_C5_amended :
    (∀ s, s ∈ App.service_names → App.extract_name s = some s)
  ∧ CS.extract_name msgImHaircut = some "Haircut" := by
  constructor
  · intro s hs
    simp only [App.service_names, App.BUSINESS_services, List.mem_cons, List.not_mem_nil, or_false] at hs
    rcases hs with h | h | h <;> subst h <;> decide
  · decide

/-- C5 witness: the amended theorem applied at the concrete catalog entry. -/
theorem claim_C5_witness : App.extract_name "Haircut" = some "Haircut" :=
  claim_C5_amended.1 "Haircut" (by decide)

/-- C6 (confirmed): a filled slot is never overwritten — the multi-intent fill,
both handle_booking implementations, and whole non-cancel chat turns of both
backends preserve every already-filled slot value. -/
theorem claim_C6 :
    (∀ (fz : String → Option DT) (fzd : String → DT → Option DT) (now : DT) (s : App.Session) (m : String),
      (truthyS s.slots.service = true →
        (App.fill_slots_from_message fz fzd now s m).slots.service = s.slots.service)
      ∧ (truthyS s.slots.datetime = true →
        (App.fill_slots_from_message fz fzd now s m).slots.datetime = s.slots.datetime)
      ∧ (truthyS s.slots.name = true →
        (App.fill_slots_from_message fz fzd now s m).slots.name = s.slots.name)
      ∧ (truthyS s.slots.contact = true →
        (App.fill_slots_from_message fz fzd now s m).slots.contact = s.slots.contact))
  ∧ (∀ (fz : String → Option DT) (fzd : String → DT → Option DT) (now : DT) (s : App.Session) (m : String),
      (truthyS s.slots.service = true →
        (App.handle_booking fz fzd now s m).2.slots.service = s.slots.service)
      ∧ (truthyS s.slots.datetime = true →
        (App.handle_booking fz fzd now s m).2.slots.datetime = s.slots.datetime)
      ∧ (truthyS s.slots.name = true →
        (App.handle_booking fz fzd now s m).2.slots.name = s.slots.name)
      ∧ (truthyS s.slots.contact = true →
        (App.handle_booking fz fzd now s m).2.slots.contact = s.slots.contact))
  ∧ (∀ (fz : String → Option DT) (now : DT) (s : CS.Session) (m : String),
      (truthyS s.slots.service = true →
        (CS.handle_booking fz now s m).2.slots.service = s.slots.service)
      ∧ (CS.truthyD s.slots.datetime = true →
        (CS.handle_booking fz now s m).2.slots.datetime = s.slots.datetime)
      ∧ (truthyS s.slots.name = true →
        (CS.handle_booking fz now s m).2.slots.name = s.slots.name)
      ∧ (truthyS s.slots.contact = true →
        (CS.handle_booking fz now s m).2.slots.contact = s.slots.contact))
  ∧ (∀ (fz : String → Option DT) (fzd : String → DT → Option DT) (pick : List String → String)
        (now : DT) (s : App.Session) (raw : String),
      strContains (pyLower (pyStrip raw)) "cancel" = false →
      (truthyS s.slots.service = true →
        (App.chatTurn fz fzd pick now s raw).2.slots.service = s.slots.service)
      ∧ (truthyS s.slots.datetime = true →
        (App.chatTurn fz fzd pick now s raw).2.slots.datetime = s.slots.datetime)
      ∧ (truthyS s.slots.name = true →
        (App.chatTurn fz fzd pick now s raw).2.slots.name = s.slots.name)
      ∧ (truthyS s.slots.contact = true →
        (App.chatTurn fz fzd pick now s raw).2.slots.contact = s.slots.contact))
  ∧ (∀ (fz : String → Option DT) (pick : List String → String) (now : DT) (s : CS.Session) (raw : String),
      strContains (pyLower (pyStrip raw)) "cancel" = false →
      (truthyS s.slots.service = true →
        (CS.chatTurn fz pick now s raw).2.slots.service = s.slots.service)
      ∧ (CS.truthyD s.slots.datetime = true →
        (CS.chatTurn fz pick now s raw).2.slots.datetime = s.slots.datetime)
      ∧ (truthyS s.slots.name = true →
        (CS.chatTurn fz pick now s raw).2.slots.name = s.slots.name)
      ∧ (truthyS s.slots.contact = true →
        (CS.chatTurn fz pick now s raw).2.slots.contact = s.slots.contact)) := by
  refine ⟨?_, ?_, ?_, ?_, ?_⟩
  · intro fz fzd now s m
    exact ⟨fill_slots_service_keep fz fzd now s m, fill_slots_datetime_keep fz fzd now s m,
           fill_slots_name_keep fz fzd now s m, fill_slots_contact_keep fz fzd now s m⟩
  · intro fz fzd now s m
    refine ⟨?_, ?_, ?_, ?_⟩ <;> intro h <;> rw [handle_booking_slots]
    · exact fill_slots_service_keep fz fzd now s m h
    · exact fill_slots_datetime_keep fz fzd now s m h
    · exact fill_slots_name_keep fz fzd now s m h
    · exact fill_slots_contact_keep fz fzd now s m h
  · intro fz now s m
    exact ⟨cs_hb_service_keep fz now s m, cs_hb_datetime_keep fz now s m,
           cs_hb_name_keep fz now s m, cs_hb_contact_keep fz now s m⟩
  · intro fz fzd pick now s raw hc
    exact ⟨chatTurn_service_keep fz fzd pick now s raw hc,
           chatTurn_datetime_keep fz fzd pick now s raw hc,
           chatTurn_name_keep fz fzd pick now s raw hc,
           chatTurn_contact_keep fz fzd pick now s raw hc⟩
  · intro fz pick now s raw hc
    exact ⟨cs_chatTurn_service_keep fz pick now s raw hc,
           cs_chatTurn_datetime_keep fz pick now s raw hc,
           cs_chatTurn_name_keep fz pick now s raw hc,
           cs_chatTurn_contact_keep fz pick now s raw hc⟩

/-- C6 witness: a fully filled session keeps its service and contact values
across a concrete non-cancel chat turn. -/
theorem claim_C6_witness :
    (App.chatTurn dtparseModel dtparseModelD pickHead now0 sFull "hello").2.slots.service
        = sFull.slots.service
    ∧ (App.chatTurn dtparseModel dtparseModelD pickHead now0 sFull "hello").2.slots.contact
        = sFull.slots.contact := by
  refine ⟨(claim_C6.2.2.2.1 dtparseModel dtparseModelD pickHead now0 sFull "hello" (by decide)).1 (by decide),
          ((claim_C6.2.2.2.1 dtparseModel dtparseModelD pickHead now0 sFull "hello" (by decide)).2.2.2 (by decide))⟩

/-- C7 (confirmed): a cancel turn (one that reaches the cancel branch) clears
the in-progress slots — app.py keeps the name (the tolerated variant) and also
resets current_step and the retry map; chatserver.py clears all four — and in
both backends the bookings list is left exactly as it was. -/
theorem claim_C7 :
    (∀ (fz : String → Option DT) (fzd : String → DT → Option DT) (pick : List String → String)
        (now : DT) (s : App.Session) (raw : String),
      (pyLower (pyStrip raw) == "pay now" || pyLower (pyStrip raw) == "pay"
        || pyLower (pyStrip raw) == "checkout") = false →
      (strContains (pyLower (pyStrip raw)) "opening" || strContains (pyLower (pyStrip raw)) "hours") = false →
      (strContains (pyLower (pyStrip raw)) "contact" || strContains (pyLower (pyStrip raw)) "phone"
        || strContains (pyLower (pyStrip raw)) "email") = false →
      strContains (pyLower (pyStrip raw)) "cancel" = true →
      (App.chatTurn fz fzd pick now s raw).2.slots
          = ⟨none, none, s.slots.name, none⟩
        ∧ (App.chatTurn fz fzd pick now s raw).2.retries = []
        ∧ (App.chatTurn fz fzd pick now s raw).2.current_step = none
        ∧ (App.chatTurn fz fzd pick now s raw).2.bookings = s.bookings)
  ∧ (∀ (fz : String → Option DT) (pick : List String → String) (now : DT) (s : CS.Session) (raw : String),
      (pyLower (pyStrip raw) == "pay" || pyLower (pyStrip raw) == "pay now"
        || pyLower (pyStrip raw) == "checkout") = false →
      strContains (pyLower (pyStrip raw)) "opening" = false →
      (strContains (pyLower (pyStrip raw)) "contact" && (strContains (pyLower (pyStrip raw)) "details"
        || strContains (pyLower (pyStrip raw)) "number" || strContains (pyLower (pyStrip raw)) "email")) = false →
      strContains (pyLower (pyStrip raw)) "cancel" = true →
      (CS.chatTurn fz pick now s raw).2.slots = ⟨none, none, none, none⟩
        ∧ (CS.chatTurn fz pick now s raw).2.bookings = s.bookings) := by
  constructor
  · intro fz fzd pick now s raw h1 h2 h3 h4
    unfold App.chatTurn
    dsimp only
    simp only [h1, h2, h3, h4, Bool.false_eq_true, if_false, if_true]
    exact ⟨by rw [remember_slots], by rw [remember_retries], by rw [remember_current_step],
           by rw [remember_bookings]⟩
  · intro fz pick now s raw h1 h2 h3 h4
    unfold CS.chatTurn
    dsimp only
    simp only [h1, h2, h3, h4, Bool.false_eq_true, if_false, if_true]
    refine ⟨?_, ?_⟩ <;> trivial

/-- C7 witness: the literal message "cancel" clears in-progress slots in both
backends while the previously finalized booking stays counted. -/
theorem claim_C7_witness :
    (App.chatTurn dtparseModel dtparseModelD pickHead now0 sBooked "cancel").2.bookings = sBooked.bookings
    ∧ (App.chatTurn dtparseModel dtparseModelD pickHead now0 sBooked "cancel").2.slots
        = ⟨none, none, sBooked.slots.name, none⟩
    ∧ (CS.chatTurn dtparseModel pickHead now0 csBooked "cancel").2.bookings = csBooked.bookings
    ∧ (CS.chatTurn dtparseModel pickHead now0 csBooked "cancel").2.slots = ⟨none, none, none, none⟩ := by
  have ha := claim_C7.1 dtparseModel dtparseModelD pickHead now0 sBooked "cancel"
    (by decide) (by decide) (by decide) (by decide)
  have hb := claim_C7.2 dtparseModel pickHead now0 csBooked "cancel"
    (by decide) (by decide) (by decide) (by decide)
  exact ⟨ha.2.2.2, ha.1, hb.2, hb.1⟩

theorem fold_setdefault_keys (l0 : List (String × Option String)) :
    assocHas (CS.SLOT_ORDER.foldl (fun l k => assocSetdefault l k none) l0) "service" = true
    ∧ assocHas (CS.SLOT_ORDER.foldl (fun l k => assocSetdefault l k none) l0) "datetime" = true
    ∧ assocHas (CS.SLOT_ORDER.foldl (fun l k => assocSetdefault l k none) l0) "name" = true
    ∧ assocHas (CS.SLOT_ORDER.foldl (fun l k => assocSetdefault l k none) l0) "contact" = true := by
  show assocHas (assocSetdefault (assocSetdefault (assocSetdefault (assocSetdefault l0 "service" none)
        "datetime" none) "name" none) "contact" none) "service" = true ∧ _ ∧ _ ∧ _
  refine ⟨?_, ?_, ?_, ?_⟩
  · exact assocSetdefault_has_mono _ "contact" "service" none
      (assocSetdefault_has_mono _ "name" "service" none
        (assocSetdefault_has_mono _ "datetime" "service" none
          (assocSetdefault_has_self l0 "service" none)))
  · exact assocSetdefault_has_mono _ "contact" "datetime" none
      (assocSetdefault_has_mono _ "name" "datetime" none
        (assocSetdefault_has_self _ "datetime" none))
  · exact assocSetdefault_has_mono _ "contact" "name" none
      (assocSetdefault_has_self _ "name" none)
  · exact assocSetdefault_has_self _ "contact" none

/-- C8 (confirmed): an absent, empty or unknown session id is never rejected —
session_store.get_session always returns a record whose slots dict exists and
holds every key of SLOT_ORDER (repairing a malformed stored record if needed)
together with last_intent and bookings; app.py’s get_session likewise lazily
creates a complete fresh record for an absent/unknown id and returns an
existing id untouched. -/
theorem claim_C8 :
    (∀ (store : List (String × SessionStore.StoredSession)) (sid : Option String) (newId : String),
      (SessionStore.get_session store sid CS.SLOT_ORDER newId).2.slots.isSome = true
      ∧ (SessionStore.get_session store sid CS.SLOT_ORDER newId).2.last_intent.isSome = true
      ∧ (SessionStore.get_session store sid CS.SLOT_ORDER newId).2.bookings.isSome = true
      ∧ (CS.SLOT_ORDER.all
          (fun k => hasSlotKey (SessionStore.get_session store sid CS.SLOT_ORDER newId).2 k)) = true)
  ∧ (∀ (sessions : List (String × App.Session)) (newId : String),
      App.get_session sessions none newId = (newId, sessions ++ [(newId, App.freshSession newId)]))
  ∧ (∀ (sessions : List (String × App.Session)) (sid newId : String),
      (sid == "" || !assocHas sessions sid) = true →
      App.get_session sessions (some sid) newId = (newId, sessions ++ [(newId, App.freshSession newId)]))
  ∧ (∀ (sessions : List (String × App.Session)) (sid newId : String),
      (sid == "" || !assocHas sessions sid) = false →
      App.get_session sessions (some sid) newId = (sid, sessions)) := by
  refine ⟨?_, ?_, ?_, ?_⟩
  · intro store sid newId
    match sid with
    | none => exact ⟨rfl, rfl, rfl, rfl⟩
    | some s =>
      unfold SessionStore.get_session
      dsimp only
      split
      · exact ⟨rfl, rfl, rfl, rfl⟩
      · cases hget : assocGet store s with
        | none =>
          simp only [hget]
          exact ⟨rfl, rfl, rfl, rfl⟩
        | some sess =>
          simp only [hget]
          unfold SessionStore.repair_session
          dsimp only
          refine ⟨rfl, ?_, ?_, ?_⟩
          · cases sess.last_intent <;> rfl
          · cases sess.bookings <;> rfl
          · obtain ⟨k1, k2, k3, k4⟩ := fold_setdefault_keys
              (match sess.slots with
                | some l => l
                | none => [])
            simp [CS.SLOT_ORDER, hasSlotKey, List.all] at k1 k2 k3 k4 ⊢
            exact ⟨k1, k2, k3, k4⟩
  · intro sessions newId
    rfl
  · intro sessions sid newId h
    unfold App.get_session
    simp [h]
  · intro sessions sid newId h
    unfold App.get_session
    simp [h]

/-- C8 witness: a malformed stored record (slots dict without the expected keys,
no last_intent, no bookings) is repaired in place, and an unknown id lazily
creates a fresh complete record in app.py. -/
theorem claim_C8_witness :
    (CS.SLOT_ORDER.all
      (fun k => hasSlotKey (SessionStore.get_session storeMalformed (some "x") CS.SLOT_ORDER "n1").2 k)) = true
    ∧ App.get_session [] (some "zz") "n1" = ("n1", [("n1", App.freshSession "n1")]) := by
  refine ⟨(claim_C8.1 storeMalformed (some "x") "n1").2.2.2, ?_⟩
  have h := claim_C8.2.2.1 [] "zz" "n1" (by decide)
  simpa using h

/-- C9 (confirmed): handle_offscript returns a truthy deflection for every
message and pending step (classify_offscript always yields one of the four
handled categories), so the retry branch after the off-script check is
unreachable: over any chat turn the retry map stays empty once empty, and with
an empty retry map retry_prompt returns the plain re-ask — whose text is never
the pause message — so the pause message is never emitted. -/
theorem claim_C9 :
    (∀ (m st : String), truthyS (App.handle_offscript m st) = true)
  ∧ (∀ (fz : String → Option DT) (fzd : String → DT → Option DT) (pick : List String → String)
        (now : DT) (s : App.Session) (raw : String),
      s.retries = [] → (App.chatTurn fz fzd pick now s raw).2.retries = [])
  ∧ (∀ (s : App.Session) (step base : String),
      s.retries = [] → (App.retry_prompt s step base).1 = base)
  ∧ (∀ step, (App.ask_for_step step).1 ≠ App.pause_message) := by
  refine ⟨offscript_truthy, chatTurn_retries_empty, ?_, ask_for_step_ne_pause⟩
  intro s step base h
  unfold App.retry_prompt
  dsimp only
  rw [h]
  rfl

/-- C9 witness: a concrete unresolvable turn leaves the retry map empty, and
retry_prompt on an empty retry map returns the plain re-ask. -/
theorem claim_C9_witness :
    (App.chatTurn dtparseModel dtparseModelD pickHead now0 (App.freshSession "s1") "???").2.retries = []
    ∧ (App.retry_prompt (App.freshSession "s1") "service" "ask").1 = "ask" := by
  exact ⟨claim_C9.2.1 dtparseModel dtparseModelD pickHead now0 (App.freshSession "s1") "???" rfl,
         claim_C9.2.2.1 (App.freshSession "s1") "service" "ask" rfl⟩

/-- C10 (confirmed): in app.py any message with at least 7 digits passes the
contact validator, and the multi-intent pre-fill stores it (stripped) whenever
the contact slot is empty — so a pure date expression like "2026-03-04 10:00"
fills both the datetime slot and the contact slot from one message. -/
theorem claim_C10 :
    (∀ m, (digitsOf m).length ≥ 7 → App.is_valid_contact m = true)
  ∧ (∀ (fz : String → Option DT) (fzd : String → DT → Option DT) (now : DT) (s : App.Session) (m : String),
      truthyS s.slots.contact = false → App.is_valid_contact m = true →
      (App.fill_slots_from_message fz fzd now s m).slots.contact = some (pyStrip m))
  ∧ ((App.fill_slots_from_message dtparseModel dtparseModelD now0 (App.freshSession "s1") "2026-03-04 10:00").slots.datetime
        = some "Wed 04 Mar, 10:00 AM"
     ∧ (App.fill_slots_from_message dtparseModel dtparseModelD now0 (App.freshSession "s1") "2026-03-04 10:00").slots.contact
        = some "2026-03-04 10:00") := by
  refine ⟨?_, fill_slots_contact_sets, by decide⟩
  intro m h
  unfold App.is_valid_contact
  dsimp only
  apply Bool.or_eq_true_iff.mpr
  right
  rw [decide_eq_true_eq]
  show (digitsOf (pyStrip m)).length ≥ 7
  rw [digitsOf_pyStrip_length]
  exact h

/-- C10 witness: an 11-digit phone string passes the validator, and a valid
contact message fills the empty contact slot stripped. -/
theorem claim_C10_witness :
    App.is_valid_contact "07123456789" = true
    ∧ (App.fill_slots_from_message dtparseModel dtparseModelD now0 sFullButContact "07123456789").slots.contact
        = some "07123456789" := by
  refine ⟨claim_C10.1 "07123456789" (by decide), ?_⟩
  have h := claim_C10.2.1 dtparseModel dtparseModelD now0 sFullButContact "07123456789" (by decide) (by decide)
  simpa using h
